import Mathlib

/-! # E-paper panel driver (`Display_EPD_W21.cpp`): trace semantics

The driver talks to the panel controller through `EPD_W21_WriteCMD`,
`EPD_W21_WriteDATA`, the reset line, `delay` and the busy poll
`lcd_chkstatus`.  Every driver routine is embedded as the list of those
actions it performs, in order.  Buffers handed in through
`const unsigned char *` are lists of bytes; an access past the end of a
buffer (undefined behaviour in C) stops the run and is reported as
`Outcome.fault`.  `unsigned int` is the 32-bit type of the ESP32 targets and
its arithmetic is written with an explicit reduction modulo `4294967296`.
-/

namespace EPD

/-! ## Machine arithmetic -/

/-- Value of one `unsigned char` cell of a caller-owned buffer. -/
abbrev Byte := Fin 256

/-- Sum of two `unsigned int` values. -/
def uadd (a b : Nat) : Nat := (a + b) % 4294967296

/-- Difference of two `unsigned int` values (wraps below zero). -/
def usub (a b : Nat) : Nat := (a + (4294967296 - b % 4294967296)) % 4294967296

/-- Product of two `unsigned int` values. -/
def umul (a b : Nat) : Nat := (a * b) % 4294967296

/-- Conversion of an integer argument to the `unsigned char` parameter of
`EPD_W21_WriteCMD` and `EPD_W21_WriteDATA`. -/
def toByte (v : Nat) : Nat := v % 256

/-- The C operator `~` on a promoted operand, as a 32-bit pattern: the
two's-complement pattern of `-v - 1` is `4294967295 - v`. -/
def cNot (v : Nat) : Nat := 4294967295 - v % 4294967296

/-! ## Events and outcomes -/

/-- One action of the driver that is visible on the panel interface. -/
inductive Event
  | rst (high : Bool)
  | delay (ms : Nat)
  | busyWait
  | cmd (c : Nat)
  | data (d : Nat)
  deriving DecidableEq

/-- Result of running a driver routine: the events performed, and whether the
run completed (`done`) or stopped at a read past the end of a buffer
(`fault`, carrying the events performed before that read). -/
inductive Outcome
  | done (trace : List Event)
  | fault (trace : List Event)
  deriving DecidableEq

/-- Events performed by a run, whether or not it completed. -/
def Outcome.trace : Outcome → List Event
  | .done t => t
  | .fault t => t

/-- Sequential composition of two statements. -/
def Outcome.andThen : Outcome → Outcome → Outcome
  | .done a, .done b => .done (a ++ b)
  | .done a, .fault b => .fault (a ++ b)
  | .fault a, _ => .fault a

/-- A block of statements executed in order. -/
def steps : List Outcome → Outcome
  | [] => .done []
  | o :: os => o.andThen (steps os)

/-- The loop `for (i = start; ...; i++) body(i)` running `count` iterations. -/
def forLoop (body : Nat → Outcome) : (count : Nat) → (start : Nat) → Outcome
  | 0, _ => .done []
  | n + 1, i => (body i).andThen (forLoop body n (i + 1))

/-- The expression `buf[i]` used by the statement `k`: the run faults when `i`
is not an index of `buf`. -/
def readAt (buf : List Byte) (i : Nat) (k : Nat → Outcome) : Outcome :=
  match buf[i]? with
  | some b => k b.val
  | none => .fault []

/-! ## Hardware interface (`Display_EPD_W21_spi.h`) -/

/-- Modelled from the spec: the body of `EPD_W21_WriteCMD` is not part of the
sources; the CommandChannel sends exactly one opcode byte per call. -/
def EPD_W21_WriteCMD (command : Nat) : Outcome := .done [.cmd (toByte command)]

/-- Modelled from the spec: the body of `EPD_W21_WriteDATA` is not part of the
sources; the CommandChannel sends exactly one payload byte per call. -/
def EPD_W21_WriteDATA (datas : Nat) : Outcome := .done [.data (toByte datas)]

/-- The macro `EPD_W21_RST_0`: drive the reset line low. -/
def EPD_W21_RST_0 : Outcome := .done [.rst false]

/-- The macro `EPD_W21_RST_1`: drive the reset line high. -/
def EPD_W21_RST_1 : Outcome := .done [.rst true]

/-- The Arduino call `delay(ms)`. -/
def delay (ms : Nat) : Outcome := .done [.delay ms]

/-- The busy poll `lcd_chkstatus`: spin until the busy line reads 1.  The wait
is one event of the trace; how long the controller stays busy is outside the
driver. -/
def lcd_chkstatus : Outcome := .done [.busyWait]

/-! ## Driver routines (`Display_EPD_W21.cpp`)

`EPD_WIDTH`, `EPD_HEIGHT` and `EPD_ARRAY` come from `Display_EPD_W21.h`, which
is not part of the sources; they are parameters here. -/

/-- Full screen refresh initialization. -/
def EPD_Init (EPD_WIDTH EPD_HEIGHT : Nat) : Outcome :=
  steps [
    EPD_W21_RST_0,
    delay 10,
    EPD_W21_RST_1,
    delay 10,
    lcd_chkstatus,
    EPD_W21_WriteCMD 0x01,
    EPD_W21_WriteDATA 0x07,
    EPD_W21_WriteDATA 0x07,
    EPD_W21_WriteDATA 0x3f,
    EPD_W21_WriteDATA 0x3f,
    EPD_W21_WriteCMD 0x06,
    EPD_W21_WriteDATA 0x17,
    EPD_W21_WriteDATA 0x17,
    EPD_W21_WriteDATA 0x28,
    EPD_W21_WriteDATA 0x17,
    EPD_W21_WriteCMD 0x04,
    lcd_chkstatus,
    EPD_W21_WriteCMD 0x00,
    EPD_W21_WriteDATA 0x0F,
    EPD_W21_WriteCMD 0x61,
    EPD_W21_WriteDATA (EPD_WIDTH / 256),
    EPD_W21_WriteDATA (EPD_WIDTH % 256),
    EPD_W21_WriteDATA (EPD_HEIGHT / 256),
    EPD_W21_WriteDATA (EPD_HEIGHT % 256),
    EPD_W21_WriteCMD 0x15,
    EPD_W21_WriteDATA 0x00,
    EPD_W21_WriteCMD 0x50,
    EPD_W21_WriteDATA 0x11,
    EPD_W21_WriteDATA 0x07,
    EPD_W21_WriteCMD 0x60,
    EPD_W21_WriteDATA 0x22]

/-- Display update: refresh command, delay, busy poll. -/
def EPD_Update : Outcome :=
  steps [
    EPD_W21_WriteCMD 0x12,
    delay 1,
    lcd_chkstatus]

/-- Full screen refresh display function. -/
def EPD_WhiteScreen_ALL (EPD_ARRAY : Nat) (datasBW datasRW : List Byte) : Outcome :=
  steps [
    EPD_W21_WriteCMD 0x10,
    forLoop (fun i => readAt datasBW i (fun b => EPD_W21_WriteDATA (cNot b))) EPD_ARRAY 0,
    EPD_W21_WriteCMD 0x13,
    forLoop (fun i => readAt datasRW i (fun b => EPD_W21_WriteDATA b)) EPD_ARRAY 0,
    EPD_Update]

/-- Clear screen display. -/
def EPD_WhiteScreen_White (EPD_ARRAY : Nat) : Outcome :=
  steps [
    EPD_W21_WriteCMD 0x10,
    forLoop (fun _ => EPD_W21_WriteDATA 0xFF) EPD_ARRAY 0,
    EPD_W21_WriteCMD 0x13,
    forLoop (fun _ => EPD_W21_WriteDATA 0x00) EPD_ARRAY 0,
    EPD_Update]

/-- Display all black. -/
def EPD_WhiteScreen_Black (EPD_ARRAY : Nat) : Outcome :=
  steps [
    EPD_W21_WriteCMD 0x10,
    forLoop (fun _ => EPD_W21_WriteDATA 0x00) EPD_ARRAY 0,
    EPD_W21_WriteCMD 0x13,
    forLoop (fun _ => EPD_W21_WriteDATA 0x00) EPD_ARRAY 0,
    EPD_Update]

/-- Background (base map) transfer used before partial refreshes. -/
def EPD_SetRAMValue_BaseMap (EPD_ARRAY : Nat) (datasBW datasRW : List Byte) : Outcome :=
  steps [
    EPD_W21_WriteCMD 0x10,
    forLoop (fun i => readAt datasBW i (fun b => EPD_W21_WriteDATA (cNot b))) EPD_ARRAY 0,
    EPD_W21_WriteCMD 0x13,
    forLoop (fun i => readAt datasRW i (fun b => EPD_W21_WriteDATA b)) EPD_ARRAY 0,
    EPD_Update]

/-- Partial refresh display: `x_end` and `y_end` are the two local
`unsigned int` variables of the routine. -/
def EPD_Dis_Part (x_start y_start : Nat) (datas : List Byte)
    (PART_COLUMN PART_LINE : Nat) : Outcome :=
  let x_end := usub (uadd x_start PART_LINE) 1
  let y_end := usub (uadd y_start PART_COLUMN) 1
  steps [
    EPD_W21_WriteCMD 0x91,
    EPD_W21_WriteCMD 0x90,
    EPD_W21_WriteDATA (x_start / 256),
    EPD_W21_WriteDATA (x_start % 256),
    EPD_W21_WriteDATA (x_end / 256),
    EPD_W21_WriteDATA (usub (x_end % 256) 1),
    EPD_W21_WriteDATA (y_start / 256),
    EPD_W21_WriteDATA (y_start % 256),
    EPD_W21_WriteDATA (y_end / 256),
    EPD_W21_WriteDATA (usub (y_end % 256) 1),
    EPD_W21_WriteDATA 0x01,
    EPD_W21_WriteCMD 0x13,
    forLoop (fun i => readAt datas i (fun b => EPD_W21_WriteDATA b))
      (umul PART_COLUMN PART_LINE / 8) 0,
    EPD_Update]

/-- Clock display with multiple digits: five glyph buffers sent row by row. -/
def EPD_Dis_Part_Time (x_start y_start : Nat)
    (datas_A datas_B datas_C datas_D datas_E : List Byte)
    (num PART_COLUMN PART_LINE : Nat) : Outcome :=
  let x_end := usub (uadd x_start (umul PART_LINE num)) 1
  let y_end := usub (uadd y_start PART_COLUMN) 1
  steps [
    EPD_W21_WriteCMD 0x91,
    EPD_W21_WriteCMD 0x90,
    EPD_W21_WriteDATA (x_start / 256),
    EPD_W21_WriteDATA (x_start % 256),
    EPD_W21_WriteDATA (x_end / 256),
    EPD_W21_WriteDATA (usub (x_end % 256) 1),
    EPD_W21_WriteDATA (y_start / 256),
    EPD_W21_WriteDATA (y_start % 256),
    EPD_W21_WriteDATA (y_end / 256),
    EPD_W21_WriteDATA (usub (y_end % 256) 1),
    EPD_W21_WriteDATA 0x01,
    EPD_W21_WriteCMD 0x13,
    forLoop (fun i => steps [
      forLoop (fun j =>
        readAt datas_A (uadd (umul i PART_LINE / 8) j) (fun b => EPD_W21_WriteDATA b))
        (PART_LINE / 8) 0,
      forLoop (fun j =>
        readAt datas_B (uadd (umul i PART_LINE / 8) j) (fun b => EPD_W21_WriteDATA b))
        (PART_LINE / 8) 0,
      forLoop (fun j =>
        readAt datas_C (uadd (umul i PART_LINE / 8) j) (fun b => EPD_W21_WriteDATA b))
        (PART_LINE / 8) 0,
      forLoop (fun j =>
        readAt datas_D (uadd (umul i PART_LINE / 8) j) (fun b => EPD_W21_WriteDATA b))
        (PART_LINE / 8) 0,
      forLoop (fun j =>
        readAt datas_E (uadd (umul i PART_LINE / 8) j) (fun b => EPD_W21_WriteDATA b))
        (PART_LINE / 8) 0])
      PART_COLUMN 0,
    EPD_Update,
    EPD_W21_WriteCMD 0x92]

/-- Display rotation 180 degrees initialization. -/
def EPD_Init_180 (EPD_WIDTH EPD_HEIGHT : Nat) : Outcome :=
  steps [
    EPD_W21_RST_0,
    delay 10,
    EPD_W21_RST_1,
    delay 10,
    lcd_chkstatus,
    EPD_W21_WriteCMD 0x01,
    EPD_W21_WriteDATA 0x07,
    EPD_W21_WriteDATA 0x07,
    EPD_W21_WriteDATA 0x3f,
    EPD_W21_WriteDATA 0x3f,
    EPD_W21_WriteCMD 0x06,
    EPD_W21_WriteDATA 0x17,
    EPD_W21_WriteDATA 0x17,
    EPD_W21_WriteDATA 0x28,
    EPD_W21_WriteDATA 0x17,
    EPD_W21_WriteCMD 0x04,
    lcd_chkstatus,
    EPD_W21_WriteCMD 0x00,
    EPD_W21_WriteDATA 0x03,
    EPD_W21_WriteCMD 0x61,
    EPD_W21_WriteDATA (EPD_WIDTH / 256),
    EPD_W21_WriteDATA (EPD_WIDTH % 256),
    EPD_W21_WriteDATA (EPD_HEIGHT / 256),
    EPD_W21_WriteDATA (EPD_HEIGHT % 256),
    EPD_W21_WriteCMD 0x15,
    EPD_W21_WriteDATA 0x00,
    EPD_W21_WriteCMD 0x50,
    EPD_W21_WriteDATA 0x11,
    EPD_W21_WriteDATA 0x07,
    EPD_W21_WriteCMD 0x60,
    EPD_W21_WriteDATA 0x22]

/-- Fast refresh initialization. -/
def EPD_Init_Fast : Outcome :=
  steps [
    EPD_W21_RST_0,
    delay 10,
    EPD_W21_RST_1,
    delay 10,
    EPD_W21_WriteCMD 0x00,
    EPD_W21_WriteDATA 0x0F,
    EPD_W21_WriteCMD 0x04,
    delay 100,
    lcd_chkstatus,
    EPD_W21_WriteCMD 0x06,
    EPD_W21_WriteDATA 0x27,
    EPD_W21_WriteDATA 0x27,
    EPD_W21_WriteDATA 0x18,
    EPD_W21_WriteDATA 0x17,
    EPD_W21_WriteCMD 0xE0,
    EPD_W21_WriteDATA 0x02,
    EPD_W21_WriteCMD 0xE5,
    EPD_W21_WriteDATA 0x5A,
    EPD_W21_WriteCMD 0x50,
    EPD_W21_WriteDATA 0x11,
    EPD_W21_WriteDATA 0x07]

/-- Partial refresh initialization. -/
def EPD_Init_Part : Outcome :=
  steps [
    EPD_W21_RST_0,
    delay 10,
    EPD_W21_RST_1,
    delay 10,
    EPD_W21_WriteCMD 0x00,
    EPD_W21_WriteDATA 0x1F,
    EPD_W21_WriteCMD 0x04,
    delay 100,
    lcd_chkstatus,
    EPD_W21_WriteCMD 0xE0,
    EPD_W21_WriteDATA 0x02,
    EPD_W21_WriteCMD 0xE5,
    EPD_W21_WriteDATA 0x6E,
    EPD_W21_WriteCMD 0x50,
    EPD_W21_WriteDATA 0xA9,
    EPD_W21_WriteDATA 0x07]

/-- Fast refresh display function. -/
def EPD_WhiteScreen_ALL_Fast (EPD_ARRAY : Nat) (datas : List Byte) : Outcome :=
  steps [
    EPD_W21_WriteCMD 0x10,
    forLoop (fun _ => EPD_W21_WriteDATA 0x00) EPD_ARRAY 0,
    EPD_W21_WriteCMD 0x13,
    forLoop (fun i => readAt datas i (fun b => EPD_W21_WriteDATA b)) EPD_ARRAY 0,
    EPD_Update]

/-- Deep sleep function. -/
def EPD_DeepSleep : Outcome :=
  steps [
    EPD_W21_WriteCMD 0x50,
    EPD_W21_WriteDATA 0xf7,
    EPD_W21_WriteCMD 0x02,
    lcd_chkstatus,
    delay 100,
    EPD_W21_WriteCMD 0x07,
    EPD_W21_WriteDATA 0xA5]

/-! ## Timer overlay (`Display_EPD_W21.cpp`, PersonalCMS timer functions)

Local arrays are lists of bytes.  A declaration `unsigned char a[n]` gives `n`
cells of indeterminate content, supplied by the parameter `uninit`. -/

/-- The macro `TIMER_WIDTH`. -/
def TIMER_WIDTH : Nat := 150

/-- The macro `TIMER_HEIGHT`. -/
def TIMER_HEIGHT : Nat := 30

/-- The macro `TIMER_X_START`, `(EPD_WIDTH - TIMER_WIDTH)`, as the
`unsigned int` argument it is passed as. -/
def TIMER_X_START (EPD_WIDTH : Nat) : Nat := usub EPD_WIDTH TIMER_WIDTH

/-- The macro `TIMER_Y_START`, `(EPD_HEIGHT - TIMER_HEIGHT)`, as the
`unsigned int` argument it is passed as. -/
def TIMER_Y_START (EPD_HEIGHT : Nat) : Nat := usub EPD_HEIGHT TIMER_HEIGHT

/-- The declaration `unsigned char a[n]` of a local array: `n` cells whose
content is indeterminate until written. -/
def localArray (n : Nat) (uninit : Nat → Byte) : List Byte := (List.range n).map uninit

/-- The loop `for (i = start; ...; i++) body(i)` over a local buffer, running
`count` iterations. -/
def forBuf (body : Nat → List Byte → List Byte) :
    (count : Nat) → (start : Nat) → List Byte → List Byte
  | 0, _, buf => buf
  | n + 1, i, buf => forBuf body n (i + 1) (body i buf)

/-- Clear timer area for fresh display: a local buffer of
`TIMER_WIDTH * TIMER_HEIGHT / 8` bytes is set to 0x00 and handed to
`EPD_Dis_Part` with `PART_COLUMN = TIMER_HEIGHT`, `PART_LINE = TIMER_WIDTH`. -/
def EPD_Clear_Timer_Area (EPD_WIDTH EPD_HEIGHT : Nat) (uninit : Nat → Byte) : Outcome :=
  let timer_clear := localArray (TIMER_WIDTH * TIMER_HEIGHT / 8) uninit
  let timer_clear :=
    forBuf (fun i buf => buf.set i 0x00) (TIMER_WIDTH * TIMER_HEIGHT / 8) 0 timer_clear
  EPD_Dis_Part (TIMER_X_START EPD_WIDTH) (TIMER_Y_START EPD_HEIGHT) timer_clear
    TIMER_HEIGHT TIMER_WIDTH

/-- Display timer in seconds.  The digits and the text position are computed
(`x_pos` is advanced once per drawn character) but nothing is drawn from
them: the buffer is cleared, then every byte is set to 0xFF, then the buffer
is handed to `EPD_Dis_Part`.  The locals `ones`, `digit_height` and `start_y`
are assigned and never read; they are left out. -/
def EPD_Display_Timer (EPD_WIDTH EPD_HEIGHT : Nat) (seconds : Nat)
    (uninit : Nat → Byte) : Outcome :=
  let seconds := if seconds > 999 then 999 else seconds
  let timer_buffer := localArray (TIMER_WIDTH * TIMER_HEIGHT / 8) uninit
  let timer_buffer :=
    forBuf (fun i buf => buf.set i 0x00) (TIMER_WIDTH * TIMER_HEIGHT / 8) 0 timer_buffer
  let hundreds := seconds / 100
  let tens := (seconds / 10) % 10
  let digit_width := 8
  let text_width := digit_width * 4
  let start_x := TIMER_WIDTH - text_width - 5
  let x_pos := start_x
  let x_pos := if hundreds > 0 then x_pos + digit_width else x_pos
  let x_pos := if hundreds > 0 ∨ tens > 0 then x_pos + digit_width else x_pos
  let x_pos := x_pos + digit_width
  let _x_pos := x_pos + digit_width
  let timer_buffer :=
    forBuf (fun i buf => buf.set i 0xFF) (TIMER_WIDTH * TIMER_HEIGHT / 8) 0 timer_buffer
  EPD_Dis_Part (TIMER_X_START EPD_WIDTH) (TIMER_Y_START EPD_HEIGHT) timer_buffer
    TIMER_HEIGHT TIMER_WIDTH

/-! ## The ESP32-S3 variant (`ESP32_S3_N8R8_PersonalCMS/Display_EPD_W21.cpp`)

The second source file is embedded routine by routine in the namespace `S3`.
The hardware interface, the four `TIMER_` macros and the vocabulary for local
buffers are the ones above: the pin numbers, the only difference between
the two headers, do not occur in the events. -/

/-- The C library call `memset(buf, v, n)` on a buffer of at least `n` cells. -/
def memset (buf : List Byte) (v : Byte) (n : Nat) : List Byte :=
  List.replicate n v ++ buf.drop n

/-- The loop `for (i = start; i < bound; i += step) body(i)` over a local
buffer; `fuel` bounds the number of iterations. -/
def forBufStep (bound step : Nat) (body : Nat → List Byte → List Byte) :
    (fuel : Nat) → (i : Nat) → List Byte → List Byte
  | 0, _, buf => buf
  | f + 1, i, buf =>
    if i < bound then forBufStep bound step body f (i + step) (body i buf) else buf

/-- Conversion of an integer value to `unsigned char` when it is stored in a
buffer cell. -/
def byteOf (v : Nat) : Byte := ⟨v % 256, Nat.mod_lt v (by decide)⟩

namespace S3

/-- Full screen refresh initialization. -/
def EPD_Init (EPD_WIDTH EPD_HEIGHT : Nat) : Outcome :=
  steps [
    EPD_W21_RST_0,
    delay 10,
    EPD_W21_RST_1,
    delay 10,
    lcd_chkstatus,
    EPD_W21_WriteCMD 0x01,
    EPD_W21_WriteDATA 0x07,
    EPD_W21_WriteDATA 0x07,
    EPD_W21_WriteDATA 0x3f,
    EPD_W21_WriteDATA 0x3f,
    EPD_W21_WriteCMD 0x06,
    EPD_W21_WriteDATA 0x17,
    EPD_W21_WriteDATA 0x17,
    EPD_W21_WriteDATA 0x28,
    EPD_W21_WriteDATA 0x17,
    EPD_W21_WriteCMD 0x04,
    lcd_chkstatus,
    EPD_W21_WriteCMD 0x00,
    EPD_W21_WriteDATA 0x0F,
    EPD_W21_WriteCMD 0x61,
    EPD_W21_WriteDATA (EPD_WIDTH / 256),
    EPD_W21_WriteDATA (EPD_WIDTH % 256),
    EPD_W21_WriteDATA (EPD_HEIGHT / 256),
    EPD_W21_WriteDATA (EPD_HEIGHT % 256),
    EPD_W21_WriteCMD 0x15,
    EPD_W21_WriteDATA 0x00,
    EPD_W21_WriteCMD 0x50,
    EPD_W21_WriteDATA 0x11,
    EPD_W21_WriteDATA 0x07,
    EPD_W21_WriteCMD 0x60,
    EPD_W21_WriteDATA 0x22]

/-- Fast refresh initialization. -/
def EPD_Init_Fast : Outcome :=
  steps [
    EPD_W21_RST_0,
    delay 10,
    EPD_W21_RST_1,
    delay 10,
    EPD_W21_WriteCMD 0x00,
    EPD_W21_WriteDATA 0x0F,
    EPD_W21_WriteCMD 0x04,
    delay 100,
    lcd_chkstatus,
    EPD_W21_WriteCMD 0x06,
    EPD_W21_WriteDATA 0x27,
    EPD_W21_WriteDATA 0x27,
    EPD_W21_WriteDATA 0x18,
    EPD_W21_WriteDATA 0x17,
    EPD_W21_WriteCMD 0xE0,
    EPD_W21_WriteDATA 0x02,
    EPD_W21_WriteCMD 0xE5,
    EPD_W21_WriteDATA 0x5A,
    EPD_W21_WriteCMD 0x50,
    EPD_W21_WriteDATA 0x11,
    EPD_W21_WriteDATA 0x07]

/-- Partial refresh initialization. -/
def EPD_Init_Part : Outcome :=
  steps [
    EPD_W21_RST_0,
    delay 10,
    EPD_W21_RST_1,
    delay 10,
    EPD_W21_WriteCMD 0x00,
    EPD_W21_WriteDATA 0x1F,
    EPD_W21_WriteCMD 0x04,
    delay 100,
    lcd_chkstatus,
    EPD_W21_WriteCMD 0xE0,
    EPD_W21_WriteDATA 0x02,
    EPD_W21_WriteCMD 0xE5,
    EPD_W21_WriteDATA 0x6E,
    EPD_W21_WriteCMD 0x50,
    EPD_W21_WriteDATA 0xA9,
    EPD_W21_WriteDATA 0x07]

/-- Display update: refresh command, delay, busy poll. -/
def EPD_Update : Outcome :=
  steps [
    EPD_W21_WriteCMD 0x12,
    delay 1,
    lcd_chkstatus]

/-- Full screen refresh display function. -/
def EPD_WhiteScreen_ALL (EPD_ARRAY : Nat) (datasBW datasRW : List Byte) : Outcome :=
  steps [
    EPD_W21_WriteCMD 0x10,
    forLoop (fun i => readAt datasBW i (fun b => EPD_W21_WriteDATA (cNot b))) EPD_ARRAY 0,
    EPD_W21_WriteCMD 0x13,
    forLoop (fun i => readAt datasRW i (fun b => EPD_W21_WriteDATA b)) EPD_ARRAY 0,
    EPD_Update]

/-- Fast refresh display function. -/
def EPD_WhiteScreen_ALL_Fast (EPD_ARRAY : Nat) (datas : List Byte) : Outcome :=
  steps [
    EPD_W21_WriteCMD 0x10,
    forLoop (fun _ => EPD_W21_WriteDATA 0x00) EPD_ARRAY 0,
    EPD_W21_WriteCMD 0x13,
    forLoop (fun i => readAt datas i (fun b => EPD_W21_WriteDATA b)) EPD_ARRAY 0,
    EPD_Update]

/-- Clear screen display. -/
def EPD_WhiteScreen_White (EPD_ARRAY : Nat) : Outcome :=
  steps [
    EPD_W21_WriteCMD 0x10,
    forLoop (fun _ => EPD_W21_WriteDATA 0xFF) EPD_ARRAY 0,
    EPD_W21_WriteCMD 0x13,
    forLoop (fun _ => EPD_W21_WriteDATA 0x00) EPD_ARRAY 0,
    EPD_Update]

/-- Display all black. -/
def EPD_WhiteScreen_Black (EPD_ARRAY : Nat) : Outcome :=
  steps [
    EPD_W21_WriteCMD 0x10,
    forLoop (fun _ => EPD_W21_WriteDATA 0x00) EPD_ARRAY 0,
    EPD_W21_WriteCMD 0x13,
    forLoop (fun _ => EPD_W21_WriteDATA 0x00) EPD_ARRAY 0,
    EPD_Update]

/-- Background (base map) transfer used before partial refreshes. -/
def EPD_SetRAMValue_BaseMap (EPD_ARRAY : Nat) (datasBW datasRW : List Byte) : Outcome :=
  steps [
    EPD_W21_WriteCMD 0x10,
    forLoop (fun i => readAt datasBW i (fun b => EPD_W21_WriteDATA (cNot b))) EPD_ARRAY 0,
    EPD_W21_WriteCMD 0x13,
    forLoop (fun i => readAt datasRW i (fun b => EPD_W21_WriteDATA b)) EPD_ARRAY 0,
    EPD_Update]

/-- Partial refresh display: `x_end` and `y_end` are the two local
`unsigned int` variables of the routine. -/
def EPD_Dis_Part (x_start y_start : Nat) (datas : List Byte)
    (PART_COLUMN PART_LINE : Nat) : Outcome :=
  let x_end := usub (uadd x_start PART_LINE) 1
  let y_end := usub (uadd y_start PART_COLUMN) 1
  steps [
    EPD_W21_WriteCMD 0x91,
    EPD_W21_WriteCMD 0x90,
    EPD_W21_WriteDATA (x_start / 256),
    EPD_W21_WriteDATA (x_start % 256),
    EPD_W21_WriteDATA (x_end / 256),
    EPD_W21_WriteDATA (usub (x_end % 256) 1),
    EPD_W21_WriteDATA (y_start / 256),
    EPD_W21_WriteDATA (y_start % 256),
    EPD_W21_WriteDATA (y_end / 256),
    EPD_W21_WriteDATA (usub (y_end % 256) 1),
    EPD_W21_WriteDATA 0x01,
    EPD_W21_WriteCMD 0x13,
    forLoop (fun i => readAt datas i (fun b => EPD_W21_WriteDATA b))
      (umul PART_COLUMN PART_LINE / 8) 0,
    EPD_Update]

/-- Clock display with multiple digits: five glyph buffers sent row by row. -/
def EPD_Dis_Part_Time (x_start y_start : Nat)
    (datas_A datas_B datas_C datas_D datas_E : List Byte)
    (num PART_COLUMN PART_LINE : Nat) : Outcome :=
  let x_end := usub (uadd x_start (umul PART_LINE num)) 1
  let y_end := usub (uadd y_start PART_COLUMN) 1
  steps [
    EPD_W21_WriteCMD 0x91,
    EPD_W21_WriteCMD 0x90,
    EPD_W21_WriteDATA (x_start / 256),
    EPD_W21_WriteDATA (x_start % 256),
    EPD_W21_WriteDATA (x_end / 256),
    EPD_W21_WriteDATA (usub (x_end % 256) 1),
    EPD_W21_WriteDATA (y_start / 256),
    EPD_W21_WriteDATA (y_start % 256),
    EPD_W21_WriteDATA (y_end / 256),
    EPD_W21_WriteDATA (usub (y_end % 256) 1),
    EPD_W21_WriteDATA 0x01,
    EPD_W21_WriteCMD 0x13,
    forLoop (fun i => steps [
      forLoop (fun j =>
        readAt datas_A (uadd (umul i PART_LINE / 8) j) (fun b => EPD_W21_WriteDATA b))
        (PART_LINE / 8) 0,
      forLoop (fun j =>
        readAt datas_B (uadd (umul i PART_LINE / 8) j) (fun b => EPD_W21_WriteDATA b))
        (PART_LINE / 8) 0,
      forLoop (fun j =>
        readAt datas_C (uadd (umul i PART_LINE / 8) j) (fun b => EPD_W21_WriteDATA b))
        (PART_LINE / 8) 0,
      forLoop (fun j =>
        readAt datas_D (uadd (umul i PART_LINE / 8) j) (fun b => EPD_W21_WriteDATA b))
        (PART_LINE / 8) 0,
      forLoop (fun j =>
        readAt datas_E (uadd (umul i PART_LINE / 8) j) (fun b => EPD_W21_WriteDATA b))
        (PART_LINE / 8) 0])
      PART_COLUMN 0,
    EPD_Update,
    EPD_W21_WriteCMD 0x92]

/-- Display rotation 180 degrees initialization. -/
def EPD_Init_180 (EPD_WIDTH EPD_HEIGHT : Nat) : Outcome :=
  steps [
    EPD_W21_RST_0,
    delay 10,
    EPD_W21_RST_1,
    delay 10,
    lcd_chkstatus,
    EPD_W21_WriteCMD 0x01,
    EPD_W21_WriteDATA 0x07,
    EPD_W21_WriteDATA 0x07,
    EPD_W21_WriteDATA 0x3f,
    EPD_W21_WriteDATA 0x3f,
    EPD_W21_WriteCMD 0x06,
    EPD_W21_WriteDATA 0x17,
    EPD_W21_WriteDATA 0x17,
    EPD_W21_WriteDATA 0x28,
    EPD_W21_WriteDATA 0x17,
    EPD_W21_WriteCMD 0x04,
    lcd_chkstatus,
    EPD_W21_WriteCMD 0x00,
    EPD_W21_WriteDATA 0x03,
    EPD_W21_WriteCMD 0x61,
    EPD_W21_WriteDATA (EPD_WIDTH / 256),
    EPD_W21_WriteDATA (EPD_WIDTH % 256),
    EPD_W21_WriteDATA (EPD_HEIGHT / 256),
    EPD_W21_WriteDATA (EPD_HEIGHT % 256),
    EPD_W21_WriteCMD 0x15,
    EPD_W21_WriteDATA 0x00,
    EPD_W21_WriteCMD 0x50,
    EPD_W21_WriteDATA 0x11,
    EPD_W21_WriteDATA 0x07,
    EPD_W21_WriteCMD 0x60,
    EPD_W21_WriteDATA 0x22]

/-- Deep sleep function. -/
def EPD_DeepSleep : Outcome :=
  steps [
    EPD_W21_WriteCMD 0x50,
    EPD_W21_WriteDATA 0xf7,
    EPD_W21_WriteCMD 0x02,
    lcd_chkstatus,
    delay 100,
    EPD_W21_WriteCMD 0x07,
    EPD_W21_WriteDATA 0xA5]

/-- Enhanced 5x7 font data for digits 0-9. -/
def digit_font_enhanced : List (List Nat) := [
  [0x3E, 0x51, 0x49, 0x45, 0x3E, 0x00, 0x00],
  [0x00, 0x42, 0x7F, 0x40, 0x00, 0x00, 0x00],
  [0x42, 0x61, 0x51, 0x49, 0x46, 0x00, 0x00],
  [0x21, 0x41, 0x45, 0x4B, 0x31, 0x00, 0x00],
  [0x18, 0x14, 0x12, 0x7F, 0x10, 0x00, 0x00],
  [0x27, 0x45, 0x45, 0x45, 0x39, 0x00, 0x00],
  [0x3C, 0x4A, 0x49, 0x49, 0x30, 0x00, 0x00],
  [0x01, 0x71, 0x09, 0x05, 0x03, 0x00, 0x00],
  [0x36, 0x49, 0x49, 0x49, 0x36, 0x00, 0x00],
  [0x06, 0x49, 0x49, 0x29, 0x1E, 0x00, 0x00]]

/-- Clear timer area for fresh display: the local buffer is cleared with
`memset` and handed to `EPD_Dis_Part`. -/
def EPD_Clear_Timer_Area (EPD_WIDTH EPD_HEIGHT : Nat) (uninit : Nat → Byte) : Outcome :=
  let timer_clear := localArray (TIMER_WIDTH * TIMER_HEIGHT / 8) uninit
  let timer_clear := memset timer_clear 0x00 (TIMER_WIDTH * TIMER_HEIGHT / 8)
  EPD_Dis_Part (TIMER_X_START EPD_WIDTH) (TIMER_Y_START EPD_HEIGHT) timer_clear
    TIMER_HEIGHT TIMER_WIDTH

/-- Display timer in seconds: the buffer is cleared with `memset`, the glyph
of the hundreds digit is or-ed into it when that digit is not 0, every 50th
byte is set to 0xFF, and the buffer is handed to `EPD_Dis_Part`.  The tens
digit, the ones digit and the unit character only advance `x_pos`; the local
`ones` is assigned and never read and is left out. -/
def EPD_Display_Timer (EPD_WIDTH EPD_HEIGHT : Nat) (seconds : Nat)
    (uninit : Nat → Byte) : Outcome :=
  let seconds := if seconds > 999 then 999 else seconds
  let timer_buffer := localArray (TIMER_WIDTH * TIMER_HEIGHT / 8) uninit
  let timer_buffer := memset timer_buffer 0x00 (TIMER_WIDTH * TIMER_HEIGHT / 8)
  let hundreds := seconds / 100
  let tens := (seconds / 10) % 10
  let digit_width := 10
  let digit_height := 8
  let text_width := digit_width * 4
  let start_x := TIMER_WIDTH - text_width - 8
  let start_y := (TIMER_HEIGHT - digit_height) / 2
  let x_pos := start_x
  let timer_buffer :=
    if hundreds > 0 then
      forBuf (fun y buf =>
        let fontData := (digit_font_enhanced.getD hundreds []).getD y 0
        forBuf (fun x buf =>
          if fontData &&& (0x80 >>> x) ≠ 0 then
            let bufferIndex := ((start_y + y) * TIMER_WIDTH + x_pos + x) / 8
            if bufferIndex < TIMER_WIDTH * TIMER_HEIGHT / 8 then
              buf.set bufferIndex
                (byteOf ((buf.getD bufferIndex 0).val ||| (0x80 >>> ((x_pos + x) % 8))))
            else buf
          else buf) 8 0 buf) 7 0 timer_buffer
    else timer_buffer
  let x_pos := if hundreds > 0 then x_pos + digit_width else x_pos
  let x_pos := if hundreds > 0 ∨ tens > 0 then x_pos + digit_width else x_pos
  let x_pos := x_pos + digit_width
  let _x_pos := x_pos + digit_width
  let timer_buffer :=
    forBufStep (TIMER_WIDTH * TIMER_HEIGHT / 8) 50
      (fun i buf => if i < TIMER_WIDTH * TIMER_HEIGHT / 8 then buf.set i 0xFF else buf)
      (TIMER_WIDTH * TIMER_HEIGHT / 8) 0 timer_buffer
  EPD_Dis_Part (TIMER_X_START EPD_WIDTH) (TIMER_Y_START EPD_HEIGHT) timer_buffer
    TIMER_HEIGHT TIMER_WIDTH

end S3

/-! ## Vocabulary used to state the properties -/

/-- Events of a trace up to and including the first command `c`. -/
def uptoCmd (c : Nat) : List Event → List Event
  | [] => []
  | e :: es => if e = Event.cmd c then [e] else e :: uptoCmd c es

/-- The cells `buf[start]`, ..., `buf[start + len - 1]` of a buffer. -/
def slice (buf : List Byte) (start len : Nat) : List Byte := (buf.drop start).take len

/-- Payload made of `columns` rows; row `i` is the `rowBytes`-cell slice of
each of the five buffers, in the order A, B, C, D, E, taken at cell
`offset i`. -/
def interleaveAt (offset : Nat → Nat) (rowBytes columns : Nat)
    (A B C D E : List Byte) : List Byte :=
  (List.range columns).flatMap (fun i =>
    slice A (offset i) rowBytes ++ slice B (offset i) rowBytes ++ slice C (offset i) rowBytes
      ++ slice D (offset i) rowBytes ++ slice E (offset i) rowBytes)

/-- The row-major interleave of the specification: for each row `i` in
`0 .. columns-1`, the bytes `i*rowBytes .. (i+1)*rowBytes - 1` of A, then the
same slice of B, C, D and E. -/
def rowMajorInterleave (columns rowBytes : Nat) (A B C D E : List Byte) : List Byte :=
  interleaveAt (fun i => i * rowBytes) rowBytes columns A B C D E

/-- A buffer of 536870913 bytes: 536870912 zero bytes followed by one byte 1. -/
def wideBuf : List Byte := List.replicate 536870912 0 ++ [1]

/-! ## Basic facts about outcomes and loops -/

@[simp] theorem andThen_done_done (a b : List Event) :
    (Outcome.done a).andThen (.done b) = .done (a ++ b) := rfl

@[simp] theorem andThen_done_fault (a b : List Event) :
    (Outcome.done a).andThen (.fault b) = .fault (a ++ b) := rfl

@[simp] theorem andThen_fault (a : List Event) (o : Outcome) :
    (Outcome.fault a).andThen o = .fault a := rfl

@[simp] theorem steps_nil : steps [] = .done [] := rfl

@[simp] theorem steps_cons (o : Outcome) (os : List Outcome) :
    steps (o :: os) = o.andThen (steps os) := rfl

theorem trace_done_andThen (a : List Event) (o : Outcome) :
    ((Outcome.done a).andThen o).trace = a ++ o.trace := by
  cases o <;> rfl

theorem trace_steps_done_cons (es : List Event) (os : List Outcome) :
    (steps (Outcome.done es :: os)).trace = es ++ (steps os).trace :=
  trace_done_andThen es (steps os)

@[simp] theorem forLoop_zero (body : Nat → Outcome) (i : Nat) :
    forLoop body 0 i = .done [] := rfl

theorem forLoop_succ (body : Nat → Outcome) (n i : Nat) :
    forLoop body (n + 1) i = (body i).andThen (forLoop body n (i + 1)) := rfl

/-- A loop whose iterations all complete performs the concatenation of their
events. -/
theorem forLoop_done (body : Nat → Outcome) (g : Nat → List Event) :
    ∀ (n i : Nat), (∀ k, i ≤ k → k < i + n → body k = .done (g k)) →
      forLoop body n i = .done ((List.range' i n).flatMap g) := by
  intro n
  induction n with
  | zero => intro i _; simp
  | succ n ih =>
    intro i h
    rw [forLoop_succ, h i (Nat.le_refl i) (by omega), ih (i + 1) (fun k h1 h2 => h k (by omega) (by omega))]
    simp [List.range'_succ]

/-- A loop that sends the same byte in every iteration. -/
theorem forLoop_const (v : Nat) :
    ∀ (n i : Nat), forLoop (fun _ => EPD_W21_WriteDATA v) n i
      = .done (List.replicate n (Event.data (toByte v))) := by
  intro n
  induction n with
  | zero => intro i; rfl
  | succ n ih =>
    intro i
    rw [forLoop_succ, ih (i + 1)]
    simp [EPD_W21_WriteDATA, List.replicate_succ]

/-- A loop that streams `n` consecutive cells of a buffer, starting at cell
`i`, completes when the cells exist and sends them in order. -/
theorem forLoop_readAt (buf : List Byte) (f : Nat → Nat) :
    ∀ (n i : Nat), i + n ≤ buf.length →
      forLoop (fun k => readAt buf k (fun b => EPD_W21_WriteDATA (f b))) n i
        = .done (((buf.drop i).take n).map (fun b => Event.data (toByte (f b.val)))) := by
  intro n
  induction n with
  | zero => intro i _; simp
  | succ n ih =>
    intro i h
    have hi : i < buf.length := by omega
    rw [forLoop_succ, ih (i + 1) (by omega), List.drop_eq_getElem_cons hi]
    simp only [readAt, List.getElem?_eq_getElem hi, EPD_W21_WriteDATA, List.take_succ_cons,
      List.map_cons, andThen_done_done, List.singleton_append]

theorem toByte_cNot (b : Byte) : toByte (cNot b.val) = 255 - b.val := by
  have := b.isLt
  unfold toByte cNot
  omega

theorem toByte_val (b : Byte) : toByte b.val = b.val := by
  have := b.isLt
  unfold toByte
  omega

theorem EPD_Update_eq : EPD_Update = .done [.cmd 0x12, .delay 1, .busyWait] := by
  simp [EPD_Update, EPD_W21_WriteCMD, delay, lcd_chkstatus, toByte]

/-! ## Full-frame transfers -/

/-- C1: for planes of `EPD_ARRAY` bytes, `EPD_WhiteScreen_ALL` sends command
0x10, the old plane with every byte complemented (`255 - old[i]`), command
0x13, the new plane unchanged, and then the refresh sequence;
`EPD_SetRAMValue_BaseMap` performs the identical events. -/
theorem whiteScreen_ALL_frame (n : Nat) (old new : List Byte)
    (ho : old.length = n) (hn : new.length = n) :
    EPD_WhiteScreen_ALL n old new
        = .done ([Event.cmd 0x10] ++ old.map (fun b => Event.data (255 - b.val))
            ++ [Event.cmd 0x13] ++ new.map (fun b => Event.data b.val)
            ++ [Event.cmd 0x12, Event.delay 1, Event.busyWait])
      ∧ EPD_SetRAMValue_BaseMap n old new = EPD_WhiteScreen_ALL n old new := by
  refine ⟨?_, rfl⟩
  have h1 := forLoop_readAt old cNot n 0 (by omega)
  have h2 := forLoop_readAt new (fun b => b) n 0 (by omega)
  simp only [List.drop_zero] at h1 h2
  rw [← ho, List.take_length] at h1
  rw [← hn, List.take_length] at h2
  rw [ho] at h1
  rw [hn] at h2
  unfold EPD_WhiteScreen_ALL
  simp only [steps_cons, steps_nil, h1, h2, EPD_Update_eq, EPD_W21_WriteCMD, toByte_cNot,
    toByte_val]
  simp [toByte]

/-- Instance of C1 on a two-byte plane pair. -/
theorem whiteScreen_ALL_frame_witness :
    ([0x0F, 0xFF] : List Byte).length = 2 ∧ ([0x01, 0x80] : List Byte).length = 2
      ∧ (EPD_WhiteScreen_ALL 2 [0x0F, 0xFF] [0x01, 0x80]
          = .done ([Event.cmd 0x10]
              ++ ([0x0F, 0xFF] : List Byte).map (fun b => Event.data (255 - b.val))
              ++ [Event.cmd 0x13]
              ++ ([0x01, 0x80] : List Byte).map (fun b => Event.data b.val)
              ++ [Event.cmd 0x12, Event.delay 1, Event.busyWait])
        ∧ EPD_SetRAMValue_BaseMap 2 [0x0F, 0xFF] [0x01, 0x80]
          = EPD_WhiteScreen_ALL 2 [0x0F, 0xFF] [0x01, 0x80]) :=
  ⟨rfl, rfl, whiteScreen_ALL_frame 2 [0x0F, 0xFF] [0x01, 0x80] rfl rfl⟩

/-- C8: `EPD_WhiteScreen_White` sends command 0x10, `EPD_ARRAY` bytes 0xFF,
command 0x13, `EPD_ARRAY` bytes 0x00 and then refreshes;
`EPD_WhiteScreen_Black` sends the same framing with both streams made of
`EPD_ARRAY` bytes 0x00. -/
theorem whiteScreen_fill (n : Nat) :
    EPD_WhiteScreen_White n
        = .done ([Event.cmd 0x10] ++ List.replicate n (Event.data 0xFF)
            ++ [Event.cmd 0x13] ++ List.replicate n (Event.data 0x00)
            ++ [Event.cmd 0x12, Event.delay 1, Event.busyWait])
      ∧ EPD_WhiteScreen_Black n
        = .done ([Event.cmd 0x10] ++ List.replicate n (Event.data 0x00)
            ++ [Event.cmd 0x13] ++ List.replicate n (Event.data 0x00)
            ++ [Event.cmd 0x12, Event.delay 1, Event.busyWait]) := by
  constructor
  · unfold EPD_WhiteScreen_White
    simp only [steps_cons, steps_nil, forLoop_const, EPD_Update_eq, EPD_W21_WriteCMD]
    simp [toByte]
  · unfold EPD_WhiteScreen_Black
    simp only [steps_cons, steps_nil, forLoop_const, EPD_Update_eq, EPD_W21_WriteCMD]
    simp [toByte]

/-! ## Initialization scripts -/

/-- C9: for a panel whose width and height are below 65536, `EPD_Init` issues
the resolution command 0x61 exactly once, and the four data bytes right after
it are `width/256`, `width%256`, `height/256`, `height%256`. -/
theorem init_resolution (w h : Nat) (hw : w < 65536) (hh : h < 65536) :
    EPD_Init w h
        = .done ([Event.rst false, Event.delay 10, Event.rst true, Event.delay 10,
            Event.busyWait,
            Event.cmd 0x01, Event.data 0x07, Event.data 0x07, Event.data 0x3f, Event.data 0x3f,
            Event.cmd 0x06, Event.data 0x17, Event.data 0x17, Event.data 0x28, Event.data 0x17,
            Event.cmd 0x04, Event.busyWait,
            Event.cmd 0x00, Event.data 0x0F]
          ++ [Event.cmd 0x61, Event.data (w / 256), Event.data (w % 256),
            Event.data (h / 256), Event.data (h % 256)]
          ++ [Event.cmd 0x15, Event.data 0x00,
            Event.cmd 0x50, Event.data 0x11, Event.data 0x07,
            Event.cmd 0x60, Event.data 0x22])
      ∧ (EPD_Init w h).trace.count (Event.cmd 0x61) = 1 := by
  have e1 : w / 256 % 256 = w / 256 := by omega
  have e2 : h / 256 % 256 = h / 256 := by omega
  have e3 : w % 256 % 256 = w % 256 := by omega
  have e4 : h % 256 % 256 = h % 256 := by omega
  constructor
  · simp [EPD_Init, EPD_W21_RST_0, EPD_W21_RST_1, delay, lcd_chkstatus, EPD_W21_WriteCMD,
      EPD_W21_WriteDATA, toByte, e1, e2, e3, e4]
  · simp [EPD_Init, EPD_W21_RST_0, EPD_W21_RST_1, delay, lcd_chkstatus, EPD_W21_WriteCMD,
      EPD_W21_WriteDATA, toByte, Outcome.trace, List.count_cons]

/-- Instance of C9 on the 800x480 reference panel: the resolution bytes are
3, 32, 1, 224. -/
theorem init_resolution_witness :
    800 < 65536 ∧ 480 < 65536
      ∧ (EPD_Init 800 480
        = .done ([Event.rst false, Event.delay 10, Event.rst true, Event.delay 10,
            Event.busyWait,
            Event.cmd 0x01, Event.data 0x07, Event.data 0x07, Event.data 0x3f, Event.data 0x3f,
            Event.cmd 0x06, Event.data 0x17, Event.data 0x17, Event.data 0x28, Event.data 0x17,
            Event.cmd 0x04, Event.busyWait,
            Event.cmd 0x00, Event.data 0x0F]
          ++ [Event.cmd 0x61, Event.data 3, Event.data 32, Event.data 1, Event.data 224]
          ++ [Event.cmd 0x15, Event.data 0x00,
            Event.cmd 0x50, Event.data 0x11, Event.data 0x07,
            Event.cmd 0x60, Event.data 0x22])
      ∧ (EPD_Init 800 480).trace.count (Event.cmd 0x61) = 1) :=
  ⟨by decide, by decide, init_resolution 800 480 (by decide) (by decide)⟩

/-- C10: the traces of `EPD_Init_180` and `EPD_Init` have the same length and
agree at every position except position 18, the data byte that follows the
only panel-setting command 0x00 (position 17): it is 0x03 in `EPD_Init_180`
and 0x0F in `EPD_Init`. -/
theorem init_180_differs_in_one_byte (w h : Nat) :
    (EPD_Init_180 w h).trace.length = (EPD_Init w h).trace.length
      ∧ (∀ i, i ≠ 18 → (EPD_Init_180 w h).trace[i]? = (EPD_Init w h).trace[i]?)
      ∧ (EPD_Init w h).trace[17]? = some (Event.cmd 0x00)
      ∧ (EPD_Init w h).trace.count (Event.cmd 0x00) = 1
      ∧ (EPD_Init w h).trace[18]? = some (Event.data 0x0F)
      ∧ (EPD_Init_180 w h).trace[18]? = some (Event.data 0x03)
      ∧ (∃ t, EPD_Init w h = .done t) ∧ (∃ t, EPD_Init_180 w h = .done t) := by
  simp only [EPD_Init, EPD_Init_180, EPD_W21_RST_0, EPD_W21_RST_1, delay, lcd_chkstatus,
    EPD_W21_WriteCMD, EPD_W21_WriteDATA, steps_cons, steps_nil, andThen_done_done,
    Outcome.trace, List.cons_append, List.nil_append]
  refine ⟨rfl, ?_, rfl, ?_, rfl, rfl, ⟨_, rfl⟩, ⟨_, rfl⟩⟩
  · intro i hi
    by_cases h31 : i < 31
    · interval_cases i <;> first | rfl | exact absurd rfl hi
    · rw [List.getElem?_eq_none (by simp; omega), List.getElem?_eq_none (by simp; omega)]
  · simp [List.count_cons, toByte]

/-! ## Partial window: coordinate bytes -/

theorem toByte_div (v : Nat) (h : v < 65536) : toByte (v / 256) = v / 256 := by
  unfold toByte
  omega

theorem toByte_mod (v : Nat) : toByte (v % 256) = v % 256 := by
  unfold toByte
  omega

theorem end_coord (s n : Nat) (hn : 1 ≤ n) (h : s + n - 1 < 4294967296) :
    usub (uadd s n) 1 = s + n - 1 := by
  unfold usub uadd
  omega

theorem toByte_end_low (v : Nat) (h : v % 256 ≠ 0) :
    toByte (usub (v % 256) 1) = v % 256 - 1 := by
  unfold toByte usub
  omega

theorem toByte_end_low_wrap (v : Nat) (h : v % 256 = 0) :
    toByte (usub (v % 256) 1) = 255 := by
  unfold toByte usub
  omega

/-- The twelve events that open every run of `EPD_Dis_Part`, whatever the
buffer holds. -/
theorem dis_Part_trace_head (x y : Nat) (datas : List Byte) (cols lines : Nat) :
    (EPD_Dis_Part x y datas cols lines).trace
      = [Event.cmd 0x91, Event.cmd 0x90,
          Event.data (toByte (x / 256)), Event.data (toByte (x % 256)),
          Event.data (toByte (usub (uadd x lines) 1 / 256)),
          Event.data (toByte (usub (usub (uadd x lines) 1 % 256) 1)),
          Event.data (toByte (y / 256)), Event.data (toByte (y % 256)),
          Event.data (toByte (usub (uadd y cols) 1 / 256)),
          Event.data (toByte (usub (usub (uadd y cols) 1 % 256) 1)),
          Event.data 0x01, Event.cmd 0x13]
        ++ (steps [forLoop (fun i => readAt datas i (fun b => EPD_W21_WriteDATA b))
              (umul cols lines / 8) 0, EPD_Update]).trace := by
  simp only [EPD_Dis_Part, steps_cons, EPD_W21_WriteCMD, EPD_W21_WriteDATA,
    trace_done_andThen]
  simp [toByte]

/-- C2: when the start and end coordinates are below 65536, the window is not
empty and neither end coordinate is a multiple of 256, the eight data bytes
that `EPD_Dis_Part` sends after command 0x90 are `x_start/256`,
`x_start%256`, `x_end/256`, `x_end%256 - 1`, `y_start/256`, `y_start%256`,
`y_end/256`, `y_end%256 - 1`, with `x_end = x_start + lines - 1` and
`y_end = y_start + columns - 1`. -/
theorem dis_Part_window_bytes (x y : Nat) (datas : List Byte) (cols lines : Nat)
    (hx : x < 65536) (hy : y < 65536)
    (hxe : x + lines - 1 < 65536) (hye : y + cols - 1 < 65536)
    (hl : 1 ≤ lines) (hc : 1 ≤ cols)
    (hxm : (x + lines - 1) % 256 ≠ 0) (hym : (y + cols - 1) % 256 ≠ 0) :
    (EPD_Dis_Part x y datas cols lines).trace.take 10
      = [Event.cmd 0x91, Event.cmd 0x90,
          Event.data (x / 256), Event.data (x % 256),
          Event.data ((x + lines - 1) / 256), Event.data ((x + lines - 1) % 256 - 1),
          Event.data (y / 256), Event.data (y % 256),
          Event.data ((y + cols - 1) / 256), Event.data ((y + cols - 1) % 256 - 1)] := by
  rw [dis_Part_trace_head, end_coord x lines hl (by omega), end_coord y cols hc (by omega),
    toByte_div x hx, toByte_div y hy, toByte_div _ hxe, toByte_div _ hye, toByte_mod, toByte_mod,
    toByte_end_low _ hxm, toByte_end_low _ hym]
  rfl

/-- Instance of C2 on the timer window: for `x_start = 650`, `y_start = 450`,
`columns = 30`, `lines = 150` the eight bytes are 2, 138, 3, 30, 1, 194, 1,
222. -/
theorem dis_Part_window_bytes_witness :
    650 < 65536 ∧ 450 < 65536 ∧ 650 + 150 - 1 < 65536 ∧ 450 + 30 - 1 < 65536
      ∧ 1 ≤ 150 ∧ 1 ≤ 30 ∧ (650 + 150 - 1) % 256 ≠ 0 ∧ (450 + 30 - 1) % 256 ≠ 0
      ∧ (EPD_Dis_Part 650 450 (List.replicate 562 0) 30 150).trace.take 10
        = [Event.cmd 0x91, Event.cmd 0x90,
            Event.data 2, Event.data 138, Event.data 3, Event.data 30,
            Event.data 1, Event.data 194, Event.data 1, Event.data 222] :=
  ⟨by decide, by decide, by decide, by decide, by decide, by decide, by decide, by decide,
    dis_Part_window_bytes 650 450 (List.replicate 562 0) 30 150 (by decide) (by decide)
      (by decide) (by decide) (by decide) (by decide) (by decide) (by decide)⟩

/-- C3 as stated fails: for `x_start = 65536`, `lines = 1` the derived
`x_end` is 65536, a multiple of 256 with `x_end/256 = 256`, and the high
byte that `EPD_Dis_Part` sends for it (position 4 of the trace) is 0. -/
theorem dis_Part_end_high_byte_truncated :
    usub (uadd 65536 1) 1 = 65536 ∧ 65536 % 256 = 0 ∧ 65536 / 256 = 256
      ∧ (EPD_Dis_Part 65536 0 [] 1 1).trace[4]? = some (Event.data 0)
      ∧ (EPD_Dis_Part 65536 0 [] 1 1).trace[5]? = some (Event.data 255) := by
  decide

/-- C3, amended: when the end coordinate derived by `EPD_Dis_Part` is a
multiple of 256, the end low byte sent for it is 255 and the end high byte
sent is `x_end/256` reduced modulo 256, which is `x_end/256` itself when
`x_end` is below 65536; likewise for `y_end`. -/
theorem dis_Part_end_low_byte_wraps (x y : Nat) (datas : List Byte) (cols lines : Nat) :
    (usub (uadd x lines) 1 % 256 = 0 →
        (EPD_Dis_Part x y datas cols lines).trace[5]? = some (Event.data 255)
        ∧ (EPD_Dis_Part x y datas cols lines).trace[4]?
            = some (Event.data (usub (uadd x lines) 1 / 256 % 256))
        ∧ (usub (uadd x lines) 1 < 65536 →
            (EPD_Dis_Part x y datas cols lines).trace[4]?
              = some (Event.data (usub (uadd x lines) 1 / 256))))
      ∧ (usub (uadd y cols) 1 % 256 = 0 →
        (EPD_Dis_Part x y datas cols lines).trace[9]? = some (Event.data 255)
        ∧ (EPD_Dis_Part x y datas cols lines).trace[8]?
            = some (Event.data (usub (uadd y cols) 1 / 256 % 256))
        ∧ (usub (uadd y cols) 1 < 65536 →
            (EPD_Dis_Part x y datas cols lines).trace[8]?
              = some (Event.data (usub (uadd y cols) 1 / 256)))) := by
  rw [dis_Part_trace_head]
  refine ⟨fun h => ⟨?_, rfl, fun hlt => ?_⟩, fun h => ⟨?_, rfl, fun hlt => ?_⟩⟩
  · simp [toByte_end_low_wrap _ h]
  · simp [toByte_div _ hlt]
  · simp [toByte_end_low_wrap _ h]
  · simp [toByte_div _ hlt]

/-- Instance of C3 (amended): `x_start = 0`, `lines = 257` gives
`x_end = 256`, sent as high byte 1 and low byte 255; `y_start = 0`,
`columns = 1` gives `y_end = 0`, sent as high byte 0 and low byte 255. -/
theorem dis_Part_end_low_byte_wraps_witness :
    (usub (uadd 0 257) 1 = 256 ∧ 256 % 256 = 0
        ∧ (EPD_Dis_Part 0 0 (List.replicate 32 0) 1 257).trace[5]? = some (Event.data 255)
        ∧ (EPD_Dis_Part 0 0 (List.replicate 32 0) 1 257).trace[4]? = some (Event.data 1))
      ∧ (usub (uadd 0 1) 1 = 0 ∧ 0 % 256 = 0
        ∧ (EPD_Dis_Part 0 0 (List.replicate 32 0) 1 257).trace[9]? = some (Event.data 255)
        ∧ (EPD_Dis_Part 0 0 (List.replicate 32 0) 1 257).trace[8]? = some (Event.data 0)) :=
  ⟨⟨by decide, by decide,
      ((dis_Part_end_low_byte_wraps 0 0 (List.replicate 32 0) 1 257).1 (by decide)).1,
      ((dis_Part_end_low_byte_wraps 0 0 (List.replicate 32 0) 1 257).1 (by decide)).2.2 (by decide)⟩,
    ⟨by decide, by decide,
      ((dis_Part_end_low_byte_wraps 0 0 (List.replicate 32 0) 1 257).2 (by decide)).1,
      ((dis_Part_end_low_byte_wraps 0 0 (List.replicate 32 0) 1 257).2 (by decide)).2.2 (by decide)⟩⟩

/-! ## Partial window: complete runs -/

/-- A complete run of `EPD_Dis_Part`: when the buffer holds the cells the
loop reads, the run performs the window framing, the streamed cells and the
refresh sequence. -/
theorem dis_Part_run (x y : Nat) (datas : List Byte) (cols lines : Nat)
    (h : umul cols lines / 8 ≤ datas.length) :
    EPD_Dis_Part x y datas cols lines
      = .done ([Event.cmd 0x91, Event.cmd 0x90,
          Event.data (toByte (x / 256)), Event.data (toByte (x % 256)),
          Event.data (toByte (usub (uadd x lines) 1 / 256)),
          Event.data (toByte (usub (usub (uadd x lines) 1 % 256) 1)),
          Event.data (toByte (y / 256)), Event.data (toByte (y % 256)),
          Event.data (toByte (usub (uadd y cols) 1 / 256)),
          Event.data (toByte (usub (usub (uadd y cols) 1 % 256) 1)),
          Event.data 0x01, Event.cmd 0x13]
        ++ (datas.take (umul cols lines / 8)).map (fun b => Event.data b.val)
        ++ [Event.cmd 0x12, Event.delay 1, Event.busyWait]) := by
  have h1 := forLoop_readAt datas (fun b => b) (umul cols lines / 8) 0 (by omega)
  simp only [List.drop_zero, toByte_val] at h1
  simp only [EPD_Dis_Part, steps_cons, steps_nil, h1, EPD_Update_eq]
  simp [EPD_W21_WriteCMD, EPD_W21_WriteDATA, toByte]

/-- Why the buffer is taken from the memory of the target: a buffer of
536870912 bytes, which neither board can hold, is the smallest one that
admits a window whose 32-bit product `PART_COLUMN*PART_LINE` wraps; for
`columns = lines = 65536` the product is 0 and `EPD_Dis_Part` streams no data
byte between command 0x13 and the refresh. -/
theorem dis_Part_count_wraps :
    65536 * 65536 / 8 = 536870912
      ∧ 65536 * 65536 / 8 ≤ (List.replicate 536870912 (0 : Byte)).length
      ∧ EPD_Dis_Part 0 0 (List.replicate 536870912 0) 65536 65536
        = .done [Event.cmd 0x91, Event.cmd 0x90,
            Event.data 0, Event.data 0, Event.data 255, Event.data 254,
            Event.data 0, Event.data 0, Event.data 255, Event.data 254,
            Event.data 0x01, Event.cmd 0x13,
            Event.cmd 0x12, Event.delay 1, Event.busyWait] := by
  have hc : umul 65536 65536 / 8 = 0 := by decide
  refine ⟨by decide, ?_, ?_⟩
  · rw [List.length_replicate]
  · rw [dis_Part_run 0 0 _ 65536 65536 (by rw [hc]; exact Nat.zero_le _), hc, List.take_zero]
    decide

/-- C4: for every window and every data buffer of at least `columns*lines/8`
bytes, `EPD_Dis_Part` performs, in order: command 0x91, command 0x90, the
eight coordinate bytes, data byte 0x01, command 0x13, exactly the first
`columns*lines/8` bytes of the buffer, and the refresh sequence (command
0x12, delay, busy wait).  The buffer is one the target can hold: both boards
have far less than 2^29 bytes of memory. -/
theorem dis_Part_sequence (x y : Nat) (datas : List Byte) (cols lines : Nat)
    (hlen : cols * lines / 8 ≤ datas.length) (hmem : datas.length < 536870912) :
    EPD_Dis_Part x y datas cols lines
        = .done ([Event.cmd 0x91, Event.cmd 0x90]
          ++ [Event.data (toByte (x / 256)), Event.data (toByte (x % 256)),
            Event.data (toByte (usub (uadd x lines) 1 / 256)),
            Event.data (toByte (usub (usub (uadd x lines) 1 % 256) 1)),
            Event.data (toByte (y / 256)), Event.data (toByte (y % 256)),
            Event.data (toByte (usub (uadd y cols) 1 / 256)),
            Event.data (toByte (usub (usub (uadd y cols) 1 % 256) 1))]
          ++ [Event.data 0x01, Event.cmd 0x13]
          ++ (datas.take (cols * lines / 8)).map (fun b => Event.data b.val)
          ++ [Event.cmd 0x12, Event.delay 1, Event.busyWait])
      ∧ ((datas.take (cols * lines / 8)).map (fun b => Event.data b.val)).length
        = cols * lines / 8 := by
  have hfit : cols * lines < 4294967296 := by omega
  have hm : umul cols lines = cols * lines := by
    unfold umul
    exact Nat.mod_eq_of_lt hfit
  constructor
  · rw [dis_Part_run x y datas cols lines (by rw [hm]; exact hlen), hm]
    simp
  · simp [hlen]

/-- Instance of C4: a 2-column, 16-line window streams the first four bytes
of a five-byte buffer. -/
theorem dis_Part_sequence_witness :
    2 * 16 / 8 ≤ ([1, 2, 3, 4, 5] : List Byte).length
      ∧ ([1, 2, 3, 4, 5] : List Byte).length < 536870912
      ∧ EPD_Dis_Part 8 4 [1, 2, 3, 4, 5] 2 16
        = .done [Event.cmd 0x91, Event.cmd 0x90,
            Event.data 0, Event.data 8, Event.data 0, Event.data 22,
            Event.data 0, Event.data 4, Event.data 0, Event.data 4,
            Event.data 0x01, Event.cmd 0x13,
            Event.data 1, Event.data 2, Event.data 3, Event.data 4,
            Event.cmd 0x12, Event.delay 1, Event.busyWait] :=
  ⟨by decide, by decide,
    (dis_Part_sequence 8 4 [1, 2, 3, 4, 5] 2 16 (by decide) (by decide)).1⟩

/-! ## Multiplexed partial window -/

/-- One inner loop of `EPD_Dis_Part_Time`: when the cells exist and the index
`base + j` does not leave the 32-bit range, the loop streams the slice that
starts at cell `base + j`. -/
theorem forLoop_readAt_offset (buf : List Byte) (base : Nat) :
    ∀ (n j : Nat), base + j + n ≤ buf.length → base + j + n ≤ 4294967296 →
      forLoop (fun k => readAt buf (uadd base k) (fun b => EPD_W21_WriteDATA b)) n j
        = .done ((slice buf (base + j) n).map (fun b => Event.data b.val)) := by
  intro n
  induction n with
  | zero => intro j _ _; simp [slice]
  | succ n ih =>
    intro j h1 h2
    have hi : base + j < buf.length := by omega
    have hu : uadd base j = base + j := by
      unfold uadd
      exact Nat.mod_eq_of_lt (by omega)
    have ih2 := ih (j + 1) (by omega) (by omega)
    rw [show base + (j + 1) = base + j + 1 by omega] at ih2
    rw [forLoop_succ, ih2]
    simp only [slice, List.drop_eq_getElem_cons hi, readAt, hu, List.getElem?_eq_getElem hi,
      EPD_W21_WriteDATA, toByte_val, List.take_succ_cons, List.map_cons, andThen_done_done,
      List.singleton_append]

/-- The twelve events that open every run of `EPD_Dis_Part_Time`. -/
theorem dis_Part_Time_trace_head (x y : Nat) (A B C D E : List Byte) (num cols lines : Nat) :
    ∃ rest, (EPD_Dis_Part_Time x y A B C D E num cols lines).trace
      = [Event.cmd 0x91, Event.cmd 0x90,
          Event.data (toByte (x / 256)), Event.data (toByte (x % 256)),
          Event.data (toByte (usub (uadd x (umul lines num)) 1 / 256)),
          Event.data (toByte (usub (usub (uadd x (umul lines num)) 1 % 256) 1)),
          Event.data (toByte (y / 256)), Event.data (toByte (y % 256)),
          Event.data (toByte (usub (uadd y cols) 1 / 256)),
          Event.data (toByte (usub (usub (uadd y cols) 1 % 256) 1)),
          Event.data 0x01, Event.cmd 0x13] ++ rest := by
  simp only [EPD_Dis_Part_Time, EPD_W21_WriteCMD, EPD_W21_WriteDATA, trace_steps_done_cons]
  exact ⟨_, rfl⟩

/-- A complete run of `EPD_Dis_Part_Time`: when every row slice lies inside
each of the five buffers, the run performs the window framing, the rows
taken at cell `(i*PART_LINE mod 2^32)/8` of each buffer, the refresh
sequence and command 0x92. -/
theorem dis_Part_Time_run (x y : Nat) (A B C D E : List Byte) (num cols lines : Nat)
    (hw : ∀ i, i < cols → umul i lines / 8 + lines / 8 ≤ 4294967296)
    (hA : ∀ i, i < cols → umul i lines / 8 + lines / 8 ≤ A.length)
    (hB : ∀ i, i < cols → umul i lines / 8 + lines / 8 ≤ B.length)
    (hC : ∀ i, i < cols → umul i lines / 8 + lines / 8 ≤ C.length)
    (hD : ∀ i, i < cols → umul i lines / 8 + lines / 8 ≤ D.length)
    (hE : ∀ i, i < cols → umul i lines / 8 + lines / 8 ≤ E.length) :
    EPD_Dis_Part_Time x y A B C D E num cols lines
      = .done ([Event.cmd 0x91, Event.cmd 0x90,
          Event.data (toByte (x / 256)), Event.data (toByte (x % 256)),
          Event.data (toByte (usub (uadd x (umul lines num)) 1 / 256)),
          Event.data (toByte (usub (usub (uadd x (umul lines num)) 1 % 256) 1)),
          Event.data (toByte (y / 256)), Event.data (toByte (y % 256)),
          Event.data (toByte (usub (uadd y cols) 1 / 256)),
          Event.data (toByte (usub (usub (uadd y cols) 1 % 256) 1)),
          Event.data 0x01, Event.cmd 0x13]
        ++ (interleaveAt (fun i => umul i lines / 8) (lines / 8) cols A B C D E).map
            (fun b => Event.data b.val)
        ++ [Event.cmd 0x12, Event.delay 1, Event.busyWait, Event.cmd 0x92]) := by
  have hrow : ∀ k, 0 ≤ k → k < 0 + cols →
      steps [
        forLoop (fun j => readAt A (uadd (umul k lines / 8) j) (fun b => EPD_W21_WriteDATA b))
          (lines / 8) 0,
        forLoop (fun j => readAt B (uadd (umul k lines / 8) j) (fun b => EPD_W21_WriteDATA b))
          (lines / 8) 0,
        forLoop (fun j => readAt C (uadd (umul k lines / 8) j) (fun b => EPD_W21_WriteDATA b))
          (lines / 8) 0,
        forLoop (fun j => readAt D (uadd (umul k lines / 8) j) (fun b => EPD_W21_WriteDATA b))
          (lines / 8) 0,
        forLoop (fun j => readAt E (uadd (umul k lines / 8) j) (fun b => EPD_W21_WriteDATA b))
          (lines / 8) 0]
      = .done ((slice A (umul k lines / 8) (lines / 8) ++ slice B (umul k lines / 8) (lines / 8)
          ++ slice C (umul k lines / 8) (lines / 8) ++ slice D (umul k lines / 8) (lines / 8)
          ++ slice E (umul k lines / 8) (lines / 8)).map (fun b => Event.data b.val)) := by
    intro k _ hk
    have hk2 : k < cols := by omega
    have fA := forLoop_readAt_offset A (umul k lines / 8) (lines / 8) 0
      (by have := hA k hk2; omega) (by have := hw k hk2; omega)
    have fB := forLoop_readAt_offset B (umul k lines / 8) (lines / 8) 0
      (by have := hB k hk2; omega) (by have := hw k hk2; omega)
    have fC := forLoop_readAt_offset C (umul k lines / 8) (lines / 8) 0
      (by have := hC k hk2; omega) (by have := hw k hk2; omega)
    have fD := forLoop_readAt_offset D (umul k lines / 8) (lines / 8) 0
      (by have := hD k hk2; omega) (by have := hw k hk2; omega)
    have fE := forLoop_readAt_offset E (umul k lines / 8) (lines / 8) 0
      (by have := hE k hk2; omega) (by have := hw k hk2; omega)
    simp only [Nat.add_zero] at fA fB fC fD fE
    simp only [steps_cons, steps_nil, fA, fB, fC, fD, fE, andThen_done_done, List.map_append,
      List.append_nil, List.append_assoc]
  have hloop := forLoop_done _ _ cols 0 hrow
  simp only [EPD_Dis_Part_Time]
  rw [hloop]
  simp only [steps_cons, steps_nil, EPD_Update_eq]
  simp [EPD_W21_WriteCMD, EPD_W21_WriteDATA, toByte, interleaveAt, List.range_eq_range',
    List.map_flatMap]

/-- C6 as stated fails: for a 2-column, 8-line window and `num = 5` the
fourth coordinate byte sent by `EPD_Dis_Part_Time` is 38 (`x_end = 39`),
while `EPD_Dis_Part` sends 6 (`x_end = 7`) for the same window. -/
theorem dis_Part_Time_framing_differs :
    uptoCmd 0x13 (EPD_Dis_Part_Time 0 0 [0, 0] [0, 0] [0, 0] [0, 0] [0, 0] 5 2 8).trace
        = [Event.cmd 0x91, Event.cmd 0x90,
            Event.data 0, Event.data 0, Event.data 0, Event.data 38,
            Event.data 0, Event.data 0, Event.data 0, Event.data 0,
            Event.data 0x01, Event.cmd 0x13]
      ∧ uptoCmd 0x13 (EPD_Dis_Part 0 0 [0, 0] 2 8).trace
        = [Event.cmd 0x91, Event.cmd 0x90,
            Event.data 0, Event.data 0, Event.data 0, Event.data 6,
            Event.data 0, Event.data 0, Event.data 0, Event.data 0,
            Event.data 0x01, Event.cmd 0x13]
      ∧ uptoCmd 0x13 (EPD_Dis_Part_Time 0 0 [0, 0] [0, 0] [0, 0] [0, 0] [0, 0] 5 2 8).trace
        ≠ uptoCmd 0x13 (EPD_Dis_Part 0 0 [0, 0] 2 8).trace := by
  decide

/-- C6, amended: the events `EPD_Dis_Part_Time` performs up to and including
command 0x13 are those `EPD_Dis_Part` performs for the same `x_start`,
`y_start` and `columns` and for the line count `lines*num` (32-bit product):
0x91, 0x90, the eight window bytes with `x_end = x_start + lines*num - 1`,
0x01, 0x13. -/
theorem dis_Part_Time_framing (x y : Nat) (A B C D E datas : List Byte)
    (num cols lines : Nat) :
    uptoCmd 0x13 (EPD_Dis_Part_Time x y A B C D E num cols lines).trace
        = uptoCmd 0x13 (EPD_Dis_Part x y datas cols (umul lines num)).trace
      ∧ uptoCmd 0x13 (EPD_Dis_Part_Time x y A B C D E num cols lines).trace
        = [Event.cmd 0x91, Event.cmd 0x90,
            Event.data (toByte (x / 256)), Event.data (toByte (x % 256)),
            Event.data (toByte (usub (uadd x (umul lines num)) 1 / 256)),
            Event.data (toByte (usub (usub (uadd x (umul lines num)) 1 % 256) 1)),
            Event.data (toByte (y / 256)), Event.data (toByte (y % 256)),
            Event.data (toByte (usub (uadd y cols) 1 / 256)),
            Event.data (toByte (usub (usub (uadd y cols) 1 % 256) 1)),
            Event.data 0x01, Event.cmd 0x13] := by
  obtain ⟨rest, h⟩ := dis_Part_Time_trace_head x y A B C D E num cols lines
  rw [h, dis_Part_trace_head]
  simp [uptoCmd]

/-! ## Exit from partial mode -/

theorem mem_trace_andThen {e : Event} {o1 o2 : Outcome}
    (h : e ∈ (o1.andThen o2).trace) : e ∈ o1.trace ∨ e ∈ o2.trace := by
  cases o1 <;> cases o2 <;> simp_all [Outcome.andThen, Outcome.trace]

/-- Every event of a run of a loop is an event of one of its iterations. -/
theorem mem_trace_forLoop (body : Nat → Outcome) (P : Event → Prop)
    (hb : ∀ k, ∀ e ∈ (body k).trace, P e) :
    ∀ (n i : Nat), ∀ e ∈ (forLoop body n i).trace, P e := by
  intro n
  induction n with
  | zero => intro i e he; simp [Outcome.trace] at he
  | succ n ih =>
    intro i e he
    rw [forLoop_succ] at he
    rcases mem_trace_andThen he with h | h
    · exact hb i e h
    · exact ih (i + 1) e h

theorem mem_trace_readAt_write (buf : List Byte) (i : Nat) :
    ∀ e ∈ (readAt buf i (fun b => EPD_W21_WriteDATA b)).trace, ∃ d, e = Event.data d := by
  intro e he
  unfold readAt at he
  cases hb : buf[i]? with
  | none => simp [hb, Outcome.trace] at he
  | some b =>
    simp only [hb, EPD_W21_WriteDATA, Outcome.trace, List.mem_singleton] at he
    exact ⟨_, he⟩

/-- Every row slice of `EPD_Dis_Part_Time` lies inside a buffer of
`columns*lines/8` cells, wrapped row offset or not. -/
theorem row_in_bounds (i cols lines : Nat) (h : i < cols) :
    umul i lines / 8 + lines / 8 ≤ cols * lines / 8 := by
  have h1 : (i + 1) * lines ≤ cols * lines := Nat.mul_le_mul_right _ h
  have h2 : umul i lines ≤ i * lines := Nat.mod_le _ _
  have h3 : (i + 1) * lines = i * lines + lines := by ring
  omega

theorem row_in_range (i lines : Nat) (hl : lines < 4294967296) :
    umul i lines / 8 + lines / 8 ≤ 4294967296 := by
  have h2 : umul i lines < 4294967296 := Nat.mod_lt _ (by decide)
  omega

/-- C7: a run of `EPD_Dis_Part` never performs command 0x92, and a completed
run ends with the refresh sequence; a completed run of `EPD_Dis_Part_Time`
performs command 0x92 exactly once, as its last event, right after the
refresh sequence (0x12, delay, busy wait).  Runs complete when the buffers
hold the `columns*lines/8` bytes of the window. -/
theorem exit_partial_mode_asymmetry (x y : Nat) (datas A B C D E : List Byte)
    (num cols lines : Nat) :
    Event.cmd 0x92 ∉ (EPD_Dis_Part x y datas cols lines).trace
      ∧ (cols * lines / 8 ≤ datas.length →
          ∃ pre, EPD_Dis_Part x y datas cols lines
            = .done (pre ++ [Event.cmd 0x12, Event.delay 1, Event.busyWait]))
      ∧ (lines < 4294967296 →
          cols * lines / 8 ≤ A.length → cols * lines / 8 ≤ B.length →
          cols * lines / 8 ≤ C.length → cols * lines / 8 ≤ D.length →
          cols * lines / 8 ≤ E.length →
          ∃ pre, EPD_Dis_Part_Time x y A B C D E num cols lines
              = .done (pre ++ [Event.cmd 0x12, Event.delay 1, Event.busyWait]
                  ++ [Event.cmd 0x92])
            ∧ Event.cmd 0x92 ∉ pre) := by
  refine ⟨?_, ?_, ?_⟩
  · rw [dis_Part_trace_head]
    intro hmem
    rcases List.mem_append.1 hmem with h | h
    · simp at h
    · simp only [steps_cons, steps_nil] at h
      rcases mem_trace_andThen h with h1 | h1
      · obtain ⟨d, hd⟩ := mem_trace_forLoop _ (fun e => ∃ d, e = Event.data d)
          (fun k => mem_trace_readAt_write datas k) _ _ _ h1
        cases hd
      · rw [EPD_Update_eq] at h1
        simp [Outcome.trace] at h1
  · intro hd
    have hc : umul cols lines / 8 ≤ cols * lines / 8 :=
      Nat.div_le_div_right (Nat.mod_le _ _)
    exact ⟨_, by rw [dis_Part_run x y datas cols lines (by omega)]⟩
  · intro hl hA hB hC hD hE
    have hr := fun i (hi : i < cols) => row_in_bounds i cols lines hi
    rw [dis_Part_Time_run x y A B C D E num cols lines
      (fun i _ => row_in_range i lines hl)
      (fun i hi => by have := hr i hi; omega) (fun i hi => by have := hr i hi; omega)
      (fun i hi => by have := hr i hi; omega) (fun i hi => by have := hr i hi; omega)
      (fun i hi => by have := hr i hi; omega)]
    refine ⟨[Event.cmd 0x91, Event.cmd 0x90,
        Event.data (toByte (x / 256)), Event.data (toByte (x % 256)),
        Event.data (toByte (usub (uadd x (umul lines num)) 1 / 256)),
        Event.data (toByte (usub (usub (uadd x (umul lines num)) 1 % 256) 1)),
        Event.data (toByte (y / 256)), Event.data (toByte (y % 256)),
        Event.data (toByte (usub (uadd y cols) 1 / 256)),
        Event.data (toByte (usub (usub (uadd y cols) 1 % 256) 1)),
        Event.data 0x01, Event.cmd 0x13]
      ++ (interleaveAt (fun i => umul i lines / 8) (lines / 8) cols A B C D E).map
          (fun b => Event.data b.val), ?_, ?_⟩
    · simp only [List.append_assoc, List.cons_append, List.nil_append]
    · simp

/-- Instance of C7 on a 2-column, 8-line window with two-byte buffers. -/
theorem exit_partial_mode_asymmetry_witness :
    Event.cmd 0x92 ∉ (EPD_Dis_Part 0 0 [1, 2] 2 8).trace
      ∧ (∃ pre, EPD_Dis_Part 0 0 [1, 2] 2 8
            = .done (pre ++ [Event.cmd 0x12, Event.delay 1, Event.busyWait]))
      ∧ (∃ pre, EPD_Dis_Part_Time 0 0 [1, 2] [3, 4] [5, 6] [7, 8] [9, 10] 5 2 8
              = .done (pre ++ [Event.cmd 0x12, Event.delay 1, Event.busyWait]
                  ++ [Event.cmd 0x92])
            ∧ Event.cmd 0x92 ∉ pre) :=
  ⟨(exit_partial_mode_asymmetry 0 0 [1, 2] [1, 2] [3, 4] [5, 6] [7, 8] [9, 10] 5 2 8).1,
    (exit_partial_mode_asymmetry 0 0 [1, 2] [1, 2] [3, 4] [5, 6] [7, 8] [9, 10] 5 2 8).2.1
      (by decide),
    (exit_partial_mode_asymmetry 0 0 [1, 2] [1, 2] [3, 4] [5, 6] [7, 8] [9, 10] 5 2 8).2.2
      (by decide) (by decide) (by decide) (by decide) (by decide) (by decide)⟩

/-! ## Multiplexed payload -/

theorem interleaveAt_congr (f g : Nat → Nat) (w cols : Nat) (A B C D E : List Byte)
    (h : ∀ i, i < cols → f i = g i) :
    interleaveAt f w cols A B C D E = interleaveAt g w cols A B C D E := by
  unfold interleaveAt
  rw [List.flatMap_def, List.flatMap_def]
  congr 1
  apply List.map_congr_left
  intro i hi
  rw [h i (List.mem_range.1 hi)]

theorem interleaveAt_succ (f : Nat → Nat) (w n : Nat) (A B C D E : List Byte) :
    interleaveAt f w (n + 1) A B C D E
      = interleaveAt f w n A B C D E
        ++ (slice A (f n) w ++ slice B (f n) w ++ slice C (f n) w ++ slice D (f n) w
          ++ slice E (f n) w) := by
  simp [interleaveAt, List.range_succ]

/-- Row offset of `EPD_Dis_Part_Time` when nothing wraps and `lines` is a
multiple of 8. -/
theorem row_offset_exact (i cols lines : Nat) (h8 : lines % 8 = 0)
    (hfit : cols * lines < 4294967296) (hi : i < cols) :
    umul i lines / 8 = i * (lines / 8) := by
  have h1 : (i + 1) * lines ≤ cols * lines := Nat.mul_le_mul_right _ hi
  have h3 : (i + 1) * lines = i * lines + lines := by ring
  have hm : umul i lines = i * lines := by
    unfold umul
    exact Nat.mod_eq_of_lt (by omega)
  obtain ⟨w, hw⟩ : ∃ w, lines = 8 * w := ⟨lines / 8, by omega⟩
  subst hw
  rw [hm, Nat.mul_div_cancel_left w (by decide : 0 < 8),
    show i * (8 * w) = 8 * (i * w) by ring, Nat.mul_div_cancel_left _ (by decide : 0 < 8)]

/-- C5: when `lines` is a multiple of 8 and each of the five buffers holds
`columns*(lines/8)` bytes, the data bytes `EPD_Dis_Part_Time` sends between
command 0x13 and the refresh command 0x12 are the row-major interleave: for
each row `i`, the bytes `i*(lines/8) .. (i+1)*(lines/8) - 1` of A, then of B,
C, D and E.  The buffers are ones the target can hold: both boards have far
less than 2^29 bytes of memory. -/
theorem dis_Part_Time_payload (x y : Nat) (A B C D E : List Byte) (num cols lines : Nat)
    (h8 : lines % 8 = 0)
    (hA : A.length = cols * (lines / 8)) (hB : B.length = cols * (lines / 8))
    (hC : C.length = cols * (lines / 8)) (hD : D.length = cols * (lines / 8))
    (hE : E.length = cols * (lines / 8))
    (hmem : cols * (lines / 8) < 536870912) :
    ∃ hdr, Event.cmd 0x13 ∉ hdr
      ∧ EPD_Dis_Part_Time x y A B C D E num cols lines
        = .done (hdr ++ [Event.cmd 0x13]
            ++ (rowMajorInterleave cols (lines / 8) A B C D E).map (fun b => Event.data b.val)
            ++ [Event.cmd 0x12, Event.delay 1, Event.busyWait, Event.cmd 0x92]) := by
  have hq : lines = 8 * (lines / 8) := by omega
  have hcl : cols * lines = 8 * (cols * (lines / 8)) := by
    rw [show cols * lines = cols * (8 * (lines / 8)) from by rw [← hq]]
    ring
  have hfit : cols * lines < 4294967296 := by omega
  have hoff := fun i (hi : i < cols) => row_offset_exact i cols lines h8 hfit hi
  have hrow : ∀ i, i < cols → umul i lines / 8 + lines / 8 ≤ cols * (lines / 8) := by
    intro i hi
    rw [hoff i hi]
    have : (i + 1) * (lines / 8) ≤ cols * (lines / 8) := Nat.mul_le_mul_right _ hi
    have h3 : (i + 1) * (lines / 8) = i * (lines / 8) + lines / 8 := by ring
    omega
  have hlt : ∀ i, i < cols → lines < 4294967296 := by
    intro i hi
    have : 1 * lines ≤ cols * lines := Nat.mul_le_mul_right _ (by omega)
    omega
  rw [dis_Part_Time_run x y A B C D E num cols lines
    (fun i hi => row_in_range i lines (hlt i hi))
    (fun i hi => by rw [hA]; exact hrow i hi) (fun i hi => by rw [hB]; exact hrow i hi)
    (fun i hi => by rw [hC]; exact hrow i hi) (fun i hi => by rw [hD]; exact hrow i hi)
    (fun i hi => by rw [hE]; exact hrow i hi),
    interleaveAt_congr _ (fun i => i * (lines / 8)) _ _ A B C D E hoff]
  refine ⟨[Event.cmd 0x91, Event.cmd 0x90,
      Event.data (toByte (x / 256)), Event.data (toByte (x % 256)),
      Event.data (toByte (usub (uadd x (umul lines num)) 1 / 256)),
      Event.data (toByte (usub (usub (uadd x (umul lines num)) 1 % 256) 1)),
      Event.data (toByte (y / 256)), Event.data (toByte (y % 256)),
      Event.data (toByte (usub (uadd y cols) 1 / 256)),
      Event.data (toByte (usub (usub (uadd y cols) 1 % 256) 1)),
      Event.data 0x01], ?_, ?_⟩
  · simp
  · simp [rowMajorInterleave]

/-- Instance of C5 with `columns = 2`, `lines = 16`: the payload is row 0 of
A, B, C, D, E (two bytes each) followed by row 1 of A, B, C, D, E. -/
theorem dis_Part_Time_payload_witness :
    16 % 8 = 0 ∧ 2 * (16 / 8) < 536870912
      ∧ ([10, 11, 12, 13] : List Byte).length = 2 * (16 / 8)
      ∧ ([20, 21, 22, 23] : List Byte).length = 2 * (16 / 8)
      ∧ ([30, 31, 32, 33] : List Byte).length = 2 * (16 / 8)
      ∧ ([40, 41, 42, 43] : List Byte).length = 2 * (16 / 8)
      ∧ ([50, 51, 52, 53] : List Byte).length = 2 * (16 / 8)
      ∧ rowMajorInterleave 2 (16 / 8) [10, 11, 12, 13] [20, 21, 22, 23] [30, 31, 32, 33]
          [40, 41, 42, 43] [50, 51, 52, 53]
        = [10, 11, 20, 21, 30, 31, 40, 41, 50, 51, 12, 13, 22, 23, 32, 33, 42, 43, 52, 53]
      ∧ ∃ hdr, Event.cmd 0x13 ∉ hdr
        ∧ EPD_Dis_Part_Time 0 0 [10, 11, 12, 13] [20, 21, 22, 23] [30, 31, 32, 33]
            [40, 41, 42, 43] [50, 51, 52, 53] 5 2 16
          = .done (hdr ++ [Event.cmd 0x13]
              ++ (rowMajorInterleave 2 (16 / 8) [10, 11, 12, 13] [20, 21, 22, 23]
                  [30, 31, 32, 33] [40, 41, 42, 43] [50, 51, 52, 53]).map
                (fun b => Event.data b.val)
              ++ [Event.cmd 0x12, Event.delay 1, Event.busyWait, Event.cmd 0x92]) :=
  ⟨by decide, by decide, rfl, rfl, rfl, rfl, rfl, by decide,
    dis_Part_Time_payload 0 0 [10, 11, 12, 13] [20, 21, 22, 23] [30, 31, 32, 33]
      [40, 41, 42, 43] [50, 51, 52, 53] 5 2 16 (by decide) rfl rfl rfl rfl rfl (by decide)⟩

/-! ## A window whose row offset wraps

The buffers of this section hold 536870913 bytes, more than either board
has: they show that the bound on the buffer size cannot be dropped from the
statement about the multiplexed payload. -/

theorem wideBuf_length : wideBuf.length = 536870913 := by
  unfold wideBuf
  rw [List.length_append, List.length_replicate]
  rfl

theorem slice_wideBuf_first : slice wideBuf 0 1 = [0] := by
  unfold slice wideBuf
  rw [List.drop_zero,
    List.take_append_of_le_length (by rw [List.length_replicate]; decide),
    List.take_replicate]
  rfl

theorem slice_wideBuf_last : slice wideBuf 536870912 1 = [1] := by
  unfold slice wideBuf
  rw [List.drop_left' (List.length_replicate 536870912 (0 : Byte))]
  rfl

/-- Last row sent by `EPD_Dis_Part_Time` for 536870913 columns of 8 lines:
the row offset `536870912*8` wraps to 0, so the row is cell 0 of each
buffer. -/
theorem code_payload_wideBuf :
    ∃ Q, interleaveAt (fun i => umul i 8 / 8) (8 / 8) 536870913
        wideBuf wideBuf wideBuf wideBuf wideBuf = Q ++ [0, 0, 0, 0, 0] := by
  have h := interleaveAt_succ (fun i => umul i 8 / 8) 1 536870912
    wideBuf wideBuf wideBuf wideBuf wideBuf
  have h0 : umul 536870912 8 / 8 = 0 := by decide
  simp only [h0, slice_wideBuf_first] at h
  exact ⟨_, h⟩

/-- Last row of the row-major interleave for the same window: cell 536870912
of each buffer. -/
theorem spec_payload_wideBuf :
    ∃ P, rowMajorInterleave 536870913 (8 / 8) wideBuf wideBuf wideBuf wideBuf wideBuf
      = P ++ [1, 1, 1, 1, 1] := by
  have h := interleaveAt_succ (fun i => i * 1) 1 536870912
    wideBuf wideBuf wideBuf wideBuf wideBuf
  have h0 : 536870912 * 1 = 536870912 := by decide
  simp only [h0, slice_wideBuf_last] at h
  exact ⟨_, h⟩

/-- Why the buffers are taken from the memory of the target: with
`columns = 536870913`, `lines = 8` and buffers of `columns*(lines/8)` bytes,
which neither board can hold, the last payload byte `EPD_Dis_Part_Time`
sends (the event right before the refresh command 0x12) is 0, read from cell
0 because the 32-bit product `i*PART_LINE` wraps, while the row-major
interleave ends with the byte 1 of cell 536870912. -/
theorem dis_Part_Time_row_offset_wraps :
    8 % 8 = 0 ∧ wideBuf.length = 536870913 * (8 / 8)
      ∧ (rowMajorInterleave 536870913 (8 / 8) wideBuf wideBuf wideBuf wideBuf
          wideBuf).getLast? = some 1
      ∧ ((EPD_Dis_Part_Time 0 0 wideBuf wideBuf wideBuf wideBuf wideBuf 5
            536870913 8).trace.reverse).take 5
        = [Event.cmd 0x92, Event.busyWait, Event.delay 1, Event.cmd 0x12, Event.data 0]
      ∧ ¬ ∃ hdr, EPD_Dis_Part_Time 0 0 wideBuf wideBuf wideBuf wideBuf wideBuf 5 536870913 8
          = .done (hdr ++ [Event.cmd 0x13]
              ++ (rowMajorInterleave 536870913 (8 / 8) wideBuf wideBuf wideBuf wideBuf
                  wideBuf).map (fun b => Event.data b.val)
              ++ [Event.cmd 0x12, Event.delay 1, Event.busyWait, Event.cmd 0x92]) := by
  have hb : ∀ i, i < 536870913 → umul i 8 / 8 + 8 / 8 ≤ wideBuf.length := by
    intro i hi
    rw [wideBuf_length]
    unfold umul
    omega
  obtain ⟨P, hP⟩ := spec_payload_wideBuf
  obtain ⟨Q, hQ⟩ := code_payload_wideBuf
  have hlast : ((EPD_Dis_Part_Time 0 0 wideBuf wideBuf wideBuf wideBuf wideBuf 5
        536870913 8).trace.reverse).take 5
      = [Event.cmd 0x92, Event.busyWait, Event.delay 1, Event.cmd 0x12, Event.data 0] := by
    rw [dis_Part_Time_run 0 0 wideBuf wideBuf wideBuf wideBuf wideBuf 5 536870913 8
      (fun i _ => row_in_range i 8 (by decide)) hb hb hb hb hb, hQ]
    simp only [Outcome.trace, List.map_append, List.reverse_append]
    rfl
  refine ⟨by decide, wideBuf_length, ?_, hlast, ?_⟩
  · rw [hP, List.getLast?_append]
    rfl
  · rintro ⟨hdr, h⟩
    rw [h, hP] at hlast
    simp only [Outcome.trace, List.map_append, List.reverse_append, List.append_assoc] at hlast
    have hd : Event.data 1 = Event.data 0 :=
      congrArg (fun l => l.getD 4 (Event.data 1)) hlast
    cases hd

/-! ## Deep sleep -/

/-- C11: `EPD_DeepSleep` performs exactly command 0x50 with data byte 0xF7,
command 0x02 (power off), a busy wait, a delay, then command 0x07 with the
single data byte 0xA5 as the last event; the busy wait lies between the
power-off command and the deep-sleep command. -/
theorem deepSleep_sequence :
    EPD_DeepSleep
      = .done [Event.cmd 0x50, Event.data 0xF7, Event.cmd 0x02, Event.busyWait,
          Event.delay 100, Event.cmd 0x07, Event.data 0xA5] := by
  decide

/-! ## Local buffers of the timer overlay -/

theorem timer_size : TIMER_WIDTH * TIMER_HEIGHT / 8 = 562 := by decide

theorem localArray_length (n : Nat) (u : Nat → Byte) : (localArray n u).length = n := by
  simp [localArray]

theorem set_replicate_append (v x : Byte) (rest : List Byte) :
    ∀ i : Nat, (List.replicate i v ++ x :: rest).set i v
      = List.replicate (i + 1) v ++ rest := by
  intro i
  induction i with
  | zero => rfl
  | succ i ih =>
    rw [List.replicate_succ, List.cons_append, List.set_cons_succ, ih]
    rfl

/-- A loop that stores `v` in every cell from `i` on overwrites the rest of
the buffer. -/
theorem forBuf_fill (v : Byte) :
    ∀ (tail : List Byte) (i : Nat),
      forBuf (fun k buf => buf.set k v) tail.length i (List.replicate i v ++ tail)
        = List.replicate (i + tail.length) v := by
  intro tail
  induction tail with
  | nil => intro i; simp [forBuf]
  | cons x rest ih =>
    intro i
    rw [List.length_cons, forBuf, set_replicate_append, ih (i + 1)]
    congr 1
    omega

theorem forBuf_fill_all (v : Byte) (buf : List Byte) (n : Nat) (h : buf.length = n) :
    forBuf (fun k b => b.set k v) n 0 buf = List.replicate n v := by
  have := forBuf_fill v buf 0
  simp only [List.replicate_zero, List.nil_append, Nat.zero_add] at this
  rw [← h]
  exact this

theorem memset_all (v : Byte) (buf : List Byte) (n : Nat) (h : buf.length = n) :
    memset buf v n = List.replicate n v := by
  unfold memset
  rw [← h, List.drop_length, List.append_nil]

theorem S3_dis_Part_eq (x y : Nat) (datas : List Byte) (cols lines : Nat) :
    S3.EPD_Dis_Part x y datas cols lines = EPD_Dis_Part x y datas cols lines := rfl

/-- The buffer `EPD_Clear_Timer_Area` hands to `EPD_Dis_Part` is 562 zero
bytes, whatever the local array held before. -/
theorem clear_Timer_Area_call (w h : Nat) (u : Nat → Byte) :
    EPD_Clear_Timer_Area w h u
      = EPD_Dis_Part (TIMER_X_START w) (TIMER_Y_START h) (List.replicate 562 0)
          TIMER_HEIGHT TIMER_WIDTH := by
  simp only [EPD_Clear_Timer_Area]
  rw [forBuf_fill_all 0 _ _ (localArray_length _ _), timer_size]

theorem S3_clear_Timer_Area_call (w h : Nat) (u : Nat → Byte) :
    S3.EPD_Clear_Timer_Area w h u
      = EPD_Dis_Part (TIMER_X_START w) (TIMER_Y_START h) (List.replicate 562 0)
          TIMER_HEIGHT TIMER_WIDTH := by
  simp only [S3.EPD_Clear_Timer_Area]
  rw [memset_all 0 _ _ (localArray_length _ _), timer_size, S3_dis_Part_eq]

/-- The buffer the DevKit `EPD_Display_Timer` hands to `EPD_Dis_Part` is 562
bytes 0xFF for every value of `seconds`. -/
theorem display_Timer_call (w h seconds : Nat) (u : Nat → Byte) :
    EPD_Display_Timer w h seconds u
      = EPD_Dis_Part (TIMER_X_START w) (TIMER_Y_START h) (List.replicate 562 255)
          TIMER_HEIGHT TIMER_WIDTH := by
  simp only [EPD_Display_Timer]
  rw [forBuf_fill_all 0 _ _ (localArray_length _ _),
    forBuf_fill_all 255 _ _ (List.length_replicate _ _), timer_size]

/-- A run of `EPD_Dis_Part` on the timer window (30 columns, 150 lines) with
a buffer of 562 bytes completes and streams the whole buffer. -/
theorem dis_Part_timer_run (x y : Nat) (buf : List Byte) (hlen : buf.length = 562) :
    EPD_Dis_Part x y buf TIMER_HEIGHT TIMER_WIDTH
      = .done ([Event.cmd 0x91, Event.cmd 0x90,
          Event.data (toByte (x / 256)), Event.data (toByte (x % 256)),
          Event.data (toByte (usub (uadd x 150) 1 / 256)),
          Event.data (toByte (usub (usub (uadd x 150) 1 % 256) 1)),
          Event.data (toByte (y / 256)), Event.data (toByte (y % 256)),
          Event.data (toByte (usub (uadd y 30) 1 / 256)),
          Event.data (toByte (usub (usub (uadd y 30) 1 % 256) 1)),
          Event.data 0x01, Event.cmd 0x13]
        ++ buf.map (fun b => Event.data b.val)
        ++ [Event.cmd 0x12, Event.delay 1, Event.busyWait]) := by
  have hc : umul TIMER_HEIGHT TIMER_WIDTH / 8 = 562 := by decide
  rw [dis_Part_run x y buf TIMER_HEIGHT TIMER_WIDTH (by rw [hc, hlen]), hc,
    List.take_of_length_le (by omega)]
  rfl

/-! ## Timer overlay: clearing the area -/

/-- C13: on the 800x480 panel `EPD_Clear_Timer_Area` (both variants) performs
the run of `EPD_Dis_Part` for the window at (650, 450) with 30 columns and 150
lines: 0x91, 0x90, the bytes 2, 138, 3, 30, 1, 194, 1, 222, the mode byte
0x01, 0x13, exactly 562 data bytes 0x00 and the refresh sequence.  The run
completes, and the 562 bytes streamed are the whole local buffer of
`TIMER_WIDTH * TIMER_HEIGHT / 8 = 150*30/8` bytes. -/
theorem clear_Timer_Area_sequence (u : Nat → Byte) :
    EPD_Clear_Timer_Area 800 480 u
        = .done ([Event.cmd 0x91, Event.cmd 0x90,
            Event.data 2, Event.data 138, Event.data 3, Event.data 30,
            Event.data 1, Event.data 194, Event.data 1, Event.data 222,
            Event.data 0x01, Event.cmd 0x13]
          ++ List.replicate 562 (Event.data 0x00)
          ++ [Event.cmd 0x12, Event.delay 1, Event.busyWait])
      ∧ EPD_Clear_Timer_Area 800 480 u
        = EPD_Dis_Part 650 450 (List.replicate 562 0) 30 150
      ∧ S3.EPD_Clear_Timer_Area 800 480 u = EPD_Clear_Timer_Area 800 480 u
      ∧ (TIMER_X_START 800 = 800 - 150 ∧ TIMER_Y_START 480 = 480 - 30)
      ∧ (localArray (TIMER_WIDTH * TIMER_HEIGHT / 8) u).length = 562
      ∧ umul TIMER_HEIGHT TIMER_WIDTH / 8 = 562 ∧ 150 * 30 / 8 = 562 := by
  refine ⟨?_, ?_, ?_, ⟨by decide, by decide⟩, ?_, by decide, by decide⟩
  · rw [clear_Timer_Area_call, dis_Part_timer_run _ _ _ (List.length_replicate _ _),
      List.map_replicate]
    rfl
  · rw [clear_Timer_Area_call]
    rfl
  · rw [clear_Timer_Area_call, S3_clear_Timer_Area_call]
  · rw [localArray_length, timer_size]

/-! ## Timer overlay: the ESP32-S3 rendering -/

set_option maxRecDepth 200000 in
/-- The buffer the ESP32-S3 `EPD_Display_Timer` hands to `EPD_Dis_Part` holds
562 bytes, the first one 0xFF, the second one 0x00 and the ones at the
positions 0, 50, ..., 550 all 0xFF, for every value of `seconds`. -/
theorem S3_display_Timer_call (w h seconds : Nat) (u : Nat → Byte) :
    ∃ buf, S3.EPD_Display_Timer w h seconds u
        = EPD_Dis_Part (TIMER_X_START w) (TIMER_Y_START h) buf TIMER_HEIGHT TIMER_WIDTH
      ∧ buf.length = 562 ∧ buf[0]? = some 255 ∧ buf[1]? = some 0
      ∧ (List.range 12).map (fun j => buf[50 * j]?) = List.replicate 12 (some 255) := by
  simp only [S3.EPD_Display_Timer, S3_dis_Part_eq]
  rw [memset_all 0 _ _ (localArray_length _ _), timer_size]
  have hh : (if seconds > 999 then 999 else seconds) / 100 < 10 := by
    split <;> omega
  generalize (if seconds > 999 then 999 else seconds) / 100 = hd at hh ⊢
  refine ⟨_, rfl, ?_⟩
  interval_cases hd <;> decide

/-- Data byte number `k` of a run of `EPD_Dis_Part` on the timer window. -/
theorem timer_trace_data (x y : Nat) (buf : List Byte) (hlen : buf.length = 562)
    (k : Nat) (hk : k < 562) :
    (EPD_Dis_Part x y buf TIMER_HEIGHT TIMER_WIDTH).trace[12 + k]?
      = (buf[k]?).map (fun b => Event.data b.val) := by
  rw [dis_Part_timer_run x y buf hlen]
  simp only [Outcome.trace]
  rw [List.append_assoc, List.getElem?_append_right (by simp),
    List.getElem?_append_left (by simp; omega)]
  simp

/-! ## Timer overlay: the window handed to `EPD_Dis_Part` -/

/-- C15 as stated fails: the window `EPD_Clear_Timer_Area` hands to
`EPD_Dis_Part` has `PART_LINE = TIMER_WIDTH = 150` and
`PART_COLUMN = TIMER_HEIGHT = 30`; 150 is not a multiple of 8, the window has
4500 pixels, not a multiple of 8, and the 562 bytes streamed cover 4496 of
them. -/
theorem timer_window_not_byte_aligned :
    EPD_Clear_Timer_Area 800 480 (fun _ => 0)
        = EPD_Dis_Part 650 450 (List.replicate 562 0) TIMER_HEIGHT TIMER_WIDTH
      ∧ TIMER_WIDTH = 150 ∧ TIMER_HEIGHT = 30
      ∧ TIMER_WIDTH % 8 = 6
      ∧ TIMER_HEIGHT * TIMER_WIDTH = 4500 ∧ TIMER_HEIGHT * TIMER_WIDTH % 8 = 4
      ∧ TIMER_HEIGHT * TIMER_WIDTH / 8 = 562 ∧ 562 * 8 = 4496 := by
  refine ⟨?_, by decide, by decide, by decide, by decide, by decide, by decide, by decide⟩
  rw [clear_Timer_Area_call]
  rfl

/-- C15, amended: every window handed to `EPD_Dis_Part` by
`EPD_Clear_Timer_Area` and by `EPD_Display_Timer` (every `seconds`) has 30
columns and 150 lines, with a buffer of 562 bytes; `lines % 8` is 6, the
4500 pixels of the window are not a multiple of 8, and the
`columns*lines/8 = 562` bytes streamed cover 4496 of them. -/
theorem timer_window_shape (w h seconds : Nat) (u : Nat → Byte) :
    EPD_Clear_Timer_Area w h u
        = EPD_Dis_Part (TIMER_X_START w) (TIMER_Y_START h) (List.replicate 562 0)
            TIMER_HEIGHT TIMER_WIDTH
      ∧ EPD_Display_Timer w h seconds u
        = EPD_Dis_Part (TIMER_X_START w) (TIMER_Y_START h) (List.replicate 562 255)
            TIMER_HEIGHT TIMER_WIDTH
      ∧ (TIMER_HEIGHT = 30 ∧ TIMER_WIDTH = 150 ∧ TIMER_WIDTH % 8 = 6)
      ∧ (TIMER_HEIGHT * TIMER_WIDTH = 4500 ∧ TIMER_HEIGHT * TIMER_WIDTH % 8 = 4)
      ∧ (umul TIMER_HEIGHT TIMER_WIDTH / 8 = 562 ∧ 562 * 8 + 4 = TIMER_HEIGHT * TIMER_WIDTH)
      ∧ (∃ hdr : List Event, hdr.length = 12
          ∧ EPD_Clear_Timer_Area w h u
            = .done (hdr ++ List.replicate 562 (Event.data 0x00)
                ++ [Event.cmd 0x12, Event.delay 1, Event.busyWait])
          ∧ EPD_Display_Timer w h seconds u
            = .done (hdr ++ List.replicate 562 (Event.data 0xFF)
                ++ [Event.cmd 0x12, Event.delay 1, Event.busyWait])) := by
  refine ⟨clear_Timer_Area_call w h u, display_Timer_call w h seconds u,
    ⟨by decide, by decide, by decide⟩, ⟨by decide, by decide⟩, ⟨by decide, by decide⟩, ?_⟩
  rw [clear_Timer_Area_call, display_Timer_call,
    dis_Part_timer_run _ _ _ (List.length_replicate _ _),
    dis_Part_timer_run _ _ _ (List.length_replicate _ _), List.map_replicate,
    List.map_replicate]
  refine ⟨_, ?_, rfl, rfl⟩
  rfl

/-! ## The two board variants -/

/-- C14 as stated fails: on the 800x480 panel with `seconds = 0` the second
data byte of `EPD_Display_Timer` (position 13 of the trace) is 0xFF in the
DevKit variant and 0x00 in the ESP32-S3 variant. -/
theorem display_Timer_variants_differ :
    (EPD_Display_Timer 800 480 0 (fun _ => 0)).trace[13]? = some (Event.data 0xFF)
      ∧ (S3.EPD_Display_Timer 800 480 0 (fun _ => 0)).trace[13]? = some (Event.data 0x00)
      ∧ EPD_Display_Timer 800 480 0 (fun _ => 0)
        ≠ S3.EPD_Display_Timer 800 480 0 (fun _ => 0) := by
  have hd : (EPD_Display_Timer 800 480 0 (fun _ => 0)).trace[13]? = some (Event.data 0xFF) := by
    rw [display_Timer_call]
    have h := timer_trace_data (TIMER_X_START 800) (TIMER_Y_START 480) _
      (List.length_replicate 562 (255 : Byte)) 1 (by decide)
    rw [List.getElem?_replicate] at h
    exact h
  have hs : (S3.EPD_Display_Timer 800 480 0 (fun _ => 0)).trace[13]?
      = some (Event.data 0x00) := by
    obtain ⟨buf, hcall, hlen, _, h1, _⟩ := S3_display_Timer_call 800 480 0 (fun _ => 0)
    rw [hcall]
    have h := timer_trace_data (TIMER_X_START 800) (TIMER_Y_START 480) buf hlen 1 (by decide)
    rw [h1] at h
    exact h
  refine ⟨hd, hs, fun heq => ?_⟩
  rw [heq, hs] at hd
  cases hd

/-- C14, amended: every driver routine other than `EPD_Display_Timer`
performs the same events in both variants for every input;
`EPD_Display_Timer` performs the same twelve framing events, 562 data bytes
and the same refresh sequence in both, but the data bytes differ: all 0xFF in
the DevKit variant, while in the ESP32-S3 variant the first one is 0xFF, the
second one 0x00 and the ones at the positions 0, 50, ..., 550 are 0xFF. -/
theorem variants_agree_except_display_Timer (w h n x y num cols lines seconds : Nat)
    (bw rw datas A B C D E : List Byte) (u u2 : Nat → Byte) :
    S3.EPD_Init w h = EPD_Init w h
      ∧ S3.EPD_Init_Fast = EPD_Init_Fast
      ∧ S3.EPD_Init_Part = EPD_Init_Part
      ∧ S3.EPD_Init_180 w h = EPD_Init_180 w h
      ∧ S3.EPD_Update = EPD_Update
      ∧ S3.EPD_WhiteScreen_ALL n bw rw = EPD_WhiteScreen_ALL n bw rw
      ∧ S3.EPD_WhiteScreen_ALL_Fast n datas = EPD_WhiteScreen_ALL_Fast n datas
      ∧ S3.EPD_WhiteScreen_White n = EPD_WhiteScreen_White n
      ∧ S3.EPD_WhiteScreen_Black n = EPD_WhiteScreen_Black n
      ∧ S3.EPD_SetRAMValue_BaseMap n bw rw = EPD_SetRAMValue_BaseMap n bw rw
      ∧ S3.EPD_Dis_Part x y datas cols lines = EPD_Dis_Part x y datas cols lines
      ∧ S3.EPD_Dis_Part_Time x y A B C D E num cols lines
        = EPD_Dis_Part_Time x y A B C D E num cols lines
      ∧ S3.EPD_DeepSleep = EPD_DeepSleep
      ∧ S3.EPD_Clear_Timer_Area w h u = EPD_Clear_Timer_Area w h u2
      ∧ (∃ (hdr : List Event) (bufS : List Byte),
          hdr.length = 12 ∧ bufS.length = 562
          ∧ bufS[0]? = some 255 ∧ bufS[1]? = some 0
          ∧ (List.range 12).map (fun j => bufS[50 * j]?) = List.replicate 12 (some 255)
          ∧ S3.EPD_Display_Timer w h seconds u
            = .done (hdr ++ bufS.map (fun b => Event.data b.val)
                ++ [Event.cmd 0x12, Event.delay 1, Event.busyWait])
          ∧ EPD_Display_Timer w h seconds u2
            = .done (hdr ++ List.replicate 562 (Event.data 0xFF)
                ++ [Event.cmd 0x12, Event.delay 1, Event.busyWait])) := by
  refine ⟨rfl, rfl, rfl, rfl, rfl, rfl, rfl, rfl, rfl, rfl, rfl, rfl, rfl, ?_, ?_⟩
  · rw [S3_clear_Timer_Area_call, clear_Timer_Area_call]
  · obtain ⟨buf, hcall, hlen, h0, h1, h50⟩ := S3_display_Timer_call w h seconds u
    rw [hcall, display_Timer_call, dis_Part_timer_run _ _ buf hlen,
      dis_Part_timer_run _ _ _ (List.length_replicate _ _), List.map_replicate]
    refine ⟨_, buf, ?_, hlen, h0, h1, h50, rfl, rfl⟩
    rfl

/-! ## Buffers whose length does not match the window -/

/-- A streaming loop that needs more cells than the buffer holds sends the
cells that exist and then stops at the read past the end. -/
theorem forLoop_readAt_short (buf : List Byte) :
    ∀ (n i : Nat), i ≤ buf.length → buf.length < i + n →
      forLoop (fun k => readAt buf k (fun b => EPD_W21_WriteDATA b)) n i
        = .fault ((buf.drop i).map (fun b => Event.data b.val)) := by
  intro n
  induction n with
  | zero => intro i h1 h2; omega
  | succ n ih =>
    intro i h1 h2
    rw [forLoop_succ]
    by_cases hi : i < buf.length
    · rw [ih (i + 1) (by omega) (by omega), List.drop_eq_getElem_cons hi]
      simp only [readAt, List.getElem?_eq_getElem hi, EPD_W21_WriteDATA, toByte_val,
        andThen_done_fault, List.map_cons, List.singleton_append]
    · have hlen : buf.length ≤ i := by omega
      simp only [readAt, List.getElem?_eq_none hlen, andThen_fault,
        List.drop_eq_nil_of_le hlen, List.map_nil]

/-- A run of `EPD_Dis_Part` on a buffer shorter than the loop bound: the
framing and every byte of the buffer are sent before the run stops at the
read past the end of the buffer. -/
theorem dis_Part_short_run (x y : Nat) (datas : List Byte) (cols lines : Nat)
    (h : datas.length < umul cols lines / 8) :
    EPD_Dis_Part x y datas cols lines
      = .fault ([Event.cmd 0x91, Event.cmd 0x90,
          Event.data (toByte (x / 256)), Event.data (toByte (x % 256)),
          Event.data (toByte (usub (uadd x lines) 1 / 256)),
          Event.data (toByte (usub (usub (uadd x lines) 1 % 256) 1)),
          Event.data (toByte (y / 256)), Event.data (toByte (y % 256)),
          Event.data (toByte (usub (uadd y cols) 1 / 256)),
          Event.data (toByte (usub (usub (uadd y cols) 1 % 256) 1)),
          Event.data 0x01, Event.cmd 0x13]
        ++ datas.map (fun b => Event.data b.val)) := by
  have h1 := forLoop_readAt_short datas (umul cols lines / 8) 0 (Nat.zero_le _) (by omega)
  simp only [List.drop_zero] at h1
  simp only [EPD_Dis_Part, steps_cons, steps_nil, h1, EPD_Update_eq]
  simp [EPD_W21_WriteCMD, EPD_W21_WriteDATA, toByte]

/-- C12 as stated fails: for a 2-column, 16-line window (4 bytes) a buffer of
5 bytes makes `EPD_Dis_Part` complete normally after 19 events, and a buffer
of 3 bytes makes it send 15 events before the read past the end of the
buffer; in neither case is the channel untouched. -/
theorem dis_Part_no_length_check :
    ([1, 2, 3, 4, 5] : List Byte).length ≠ 2 * 16 / 8
      ∧ EPD_Dis_Part 8 4 [1, 2, 3, 4, 5] 2 16
        = .done [Event.cmd 0x91, Event.cmd 0x90,
            Event.data 0, Event.data 8, Event.data 0, Event.data 22,
            Event.data 0, Event.data 4, Event.data 0, Event.data 4,
            Event.data 0x01, Event.cmd 0x13,
            Event.data 1, Event.data 2, Event.data 3, Event.data 4,
            Event.cmd 0x12, Event.delay 1, Event.busyWait]
      ∧ ([1, 2, 3] : List Byte).length ≠ 2 * 16 / 8
      ∧ EPD_Dis_Part 8 4 [1, 2, 3] 2 16
        = .fault [Event.cmd 0x91, Event.cmd 0x90,
            Event.data 0, Event.data 8, Event.data 0, Event.data 22,
            Event.data 0, Event.data 4, Event.data 0, Event.data 4,
            Event.data 0x01, Event.cmd 0x13,
            Event.data 1, Event.data 2, Event.data 3] := by
  decide

/-- C12, amended: `EPD_Dis_Part` checks no length.  When the buffer length
differs from `columns*lines/8` (with `columns*lines` below 2^32) the run
starts with 0x91, 0x90, the eight window bytes, 0x01 and 0x13; with a longer
buffer it then streams exactly the first `columns*lines/8` bytes, refreshes
and completes; with a shorter buffer it streams every byte of the buffer and
stops at the read past its end. -/
theorem dis_Part_length_mismatch (x y : Nat) (datas : List Byte) (cols lines : Nat)
    (hfit : cols * lines < 4294967296) (hne : datas.length ≠ cols * lines / 8) :
    (cols * lines / 8 < datas.length
        ∧ EPD_Dis_Part x y datas cols lines
          = .done ([Event.cmd 0x91, Event.cmd 0x90,
              Event.data (toByte (x / 256)), Event.data (toByte (x % 256)),
              Event.data (toByte (usub (uadd x lines) 1 / 256)),
              Event.data (toByte (usub (usub (uadd x lines) 1 % 256) 1)),
              Event.data (toByte (y / 256)), Event.data (toByte (y % 256)),
              Event.data (toByte (usub (uadd y cols) 1 / 256)),
              Event.data (toByte (usub (usub (uadd y cols) 1 % 256) 1)),
              Event.data 0x01, Event.cmd 0x13]
            ++ (datas.take (cols * lines / 8)).map (fun b => Event.data b.val)
            ++ [Event.cmd 0x12, Event.delay 1, Event.busyWait]))
      ∨ (datas.length < cols * lines / 8
        ∧ EPD_Dis_Part x y datas cols lines
          = .fault ([Event.cmd 0x91, Event.cmd 0x90,
              Event.data (toByte (x / 256)), Event.data (toByte (x % 256)),
              Event.data (toByte (usub (uadd x lines) 1 / 256)),
              Event.data (toByte (usub (usub (uadd x lines) 1 % 256) 1)),
              Event.data (toByte (y / 256)), Event.data (toByte (y % 256)),
              Event.data (toByte (usub (uadd y cols) 1 / 256)),
              Event.data (toByte (usub (usub (uadd y cols) 1 % 256) 1)),
              Event.data 0x01, Event.cmd 0x13]
            ++ datas.map (fun b => Event.data b.val))) := by
  have hm : umul cols lines = cols * lines := by
    unfold umul
    exact Nat.mod_eq_of_lt hfit
  rcases Nat.lt_or_gt_of_ne hne with h | h
  · right
    exact ⟨h, by rw [dis_Part_short_run x y datas cols lines (by rw [hm]; exact h)]⟩
  · left
    exact ⟨h, by rw [dis_Part_run x y datas cols lines (by rw [hm]; omega), hm]⟩

/-- Instance of C12 (amended): a 5-byte buffer for a 4-byte window. -/
theorem dis_Part_length_mismatch_witness :
    2 * 16 < 4294967296 ∧ ([1, 2, 3, 4, 5] : List Byte).length ≠ 2 * 16 / 8
      ∧ 2 * 16 / 8 < ([1, 2, 3, 4, 5] : List Byte).length
      ∧ EPD_Dis_Part 8 4 [1, 2, 3, 4, 5] 2 16
        = .done [Event.cmd 0x91, Event.cmd 0x90,
            Event.data 0, Event.data 8, Event.data 0, Event.data 22,
            Event.data 0, Event.data 4, Event.data 0, Event.data 4,
            Event.data 0x01, Event.cmd 0x13,
            Event.data 1, Event.data 2, Event.data 3, Event.data 4,
            Event.cmd 0x12, Event.delay 1, Event.busyWait] :=
  ⟨by decide, by decide,
    (dis_Part_length_mismatch 8 4 [1, 2, 3, 4, 5] 2 16 (by decide) (by decide)).elim
      (fun h => h) (fun h => absurd h.1 (by decide))⟩

/-! ## Multiplexed window: payload size against declared window -/

theorem slice_length (buf : List Byte) (o w : Nat) (h : o + w ≤ buf.length) :
    (slice buf o w).length = w := by
  simp only [slice, List.length_take, List.length_drop]
  omega

/-- When every row slice lies inside the five buffers, the payload holds
five slices of `w` bytes per row. -/
theorem interleaveAt_length (f : Nat → Nat) (w : Nat) (A B C D E : List Byte) :
    ∀ cols : Nat,
      (∀ i, i < cols → f i + w ≤ A.length) → (∀ i, i < cols → f i + w ≤ B.length) →
      (∀ i, i < cols → f i + w ≤ C.length) → (∀ i, i < cols → f i + w ≤ D.length) →
      (∀ i, i < cols → f i + w ≤ E.length) →
      (interleaveAt f w cols A B C D E).length = 5 * cols * w := by
  intro cols
  induction cols with
  | zero => intro _ _ _ _ _; simp [interleaveAt]
  | succ n ih =>
    intro hA hB hC hD hE
    rw [interleaveAt_succ, List.length_append,
      ih (fun i hi => hA i (by omega)) (fun i hi => hB i (by omega))
        (fun i hi => hC i (by omega)) (fun i hi => hD i (by omega))
        (fun i hi => hE i (by omega))]
    simp only [List.length_append, slice_length _ _ _ (hA n (by omega)),
      slice_length _ _ _ (hB n (by omega)), slice_length _ _ _ (hC n (by omega)),
      slice_length _ _ _ (hD n (by omega)), slice_length _ _ _ (hE n (by omega))]
    ring

/-- C16: for `columns >= 1`, `lines >= 8` a multiple of 8 and buffers that
hold the window, `EPD_Dis_Part_Time` sends exactly `5*columns*(lines/8)`
payload bytes between command 0x13 and the refresh command 0x12, the same
bytes for every `num`; the window bytes it sends after 0x90 encode
`x_end = x_start + lines*num - 1` (computed in `unsigned int`, that is modulo
2^32, and equal to that number when nothing wraps); and the payload size equals
`columns*(lines*num)/8` exactly when `num = 5`. -/
theorem dis_Part_Time_payload_count (x y : Nat) (A B C D E : List Byte)
    (num cols lines : Nat)
    (hc : 1 ≤ cols) (hl : 8 ≤ lines) (h8 : lines % 8 = 0) (hlt : lines < 4294967296)
    (hA : cols * lines / 8 ≤ A.length) (hB : cols * lines / 8 ≤ B.length)
    (hC : cols * lines / 8 ≤ C.length) (hD : cols * lines / 8 ≤ D.length)
    (hE : cols * lines / 8 ≤ E.length) :
    EPD_Dis_Part_Time x y A B C D E num cols lines
        = .done ([Event.cmd 0x91, Event.cmd 0x90,
            Event.data (toByte (x / 256)), Event.data (toByte (x % 256)),
            Event.data (toByte (usub (uadd x (umul lines num)) 1 / 256)),
            Event.data (toByte (usub (usub (uadd x (umul lines num)) 1 % 256) 1)),
            Event.data (toByte (y / 256)), Event.data (toByte (y % 256)),
            Event.data (toByte (usub (uadd y cols) 1 / 256)),
            Event.data (toByte (usub (usub (uadd y cols) 1 % 256) 1)),
            Event.data 0x01, Event.cmd 0x13]
          ++ (interleaveAt (fun i => umul i lines / 8) (lines / 8) cols A B C D E).map
              (fun b => Event.data b.val)
          ++ [Event.cmd 0x12, Event.delay 1, Event.busyWait, Event.cmd 0x92])
      ∧ (interleaveAt (fun i => umul i lines / 8) (lines / 8) cols A B C D E).length
        = 5 * cols * (lines / 8)
      ∧ usub (uadd x (umul lines num)) 1
        = (x + lines * num + 4294967295) % 4294967296
      ∧ (1 ≤ x + lines * num → x + lines * num ≤ 4294967296 →
          usub (uadd x (umul lines num)) 1 = x + lines * num - 1)
      ∧ (5 * cols * (lines / 8) = cols * (lines * num) / 8 ↔ num = 5) := by
  have hr := fun i (hi : i < cols) => row_in_bounds i cols lines hi
  have bA : ∀ i, i < cols → umul i lines / 8 + lines / 8 ≤ A.length :=
    fun i hi => by have := hr i hi; omega
  have bB : ∀ i, i < cols → umul i lines / 8 + lines / 8 ≤ B.length :=
    fun i hi => by have := hr i hi; omega
  have bC : ∀ i, i < cols → umul i lines / 8 + lines / 8 ≤ C.length :=
    fun i hi => by have := hr i hi; omega
  have bD : ∀ i, i < cols → umul i lines / 8 + lines / 8 ≤ D.length :=
    fun i hi => by have := hr i hi; omega
  have bE : ∀ i, i < cols → umul i lines / 8 + lines / 8 ≤ E.length :=
    fun i hi => by have := hr i hi; omega
  refine ⟨?_, ?_, ?_, ?_, ?_⟩
  · exact dis_Part_Time_run x y A B C D E num cols lines
      (fun i _ => row_in_range i lines hlt) bA bB bC bD bE
  · exact interleaveAt_length _ _ A B C D E cols bA bB bC bD bE
  · unfold usub uadd umul
    generalize lines * num = p
    omega
  · intro h1 h2
    have hle : lines * num ≤ x + lines * num := Nat.le_add_left _ _
    unfold usub uadd umul
    generalize lines * num = p at *
    omega
  · obtain ⟨q, hq⟩ : ∃ q, lines = 8 * q := ⟨lines / 8, by omega⟩
    subst hq
    have hq1 : 1 ≤ q := by omega
    have e1 : 8 * q / 8 = q := Nat.mul_div_cancel_left q (by decide)
    have e2 : cols * (8 * q * num) / 8 = cols * q * num := by
      rw [show cols * (8 * q * num) = 8 * (cols * q * num) by ring]
      exact Nat.mul_div_cancel_left _ (by decide)
    rw [e1, e2, show 5 * cols * q = cols * q * 5 by ring]
    have hpos : 0 < cols * q := Nat.mul_pos (by omega) (by omega)
    constructor
    · intro h
      exact (Nat.eq_of_mul_eq_mul_left hpos h).symm
    · intro h
      rw [h]

/-- Instance of C16 with `columns = 2`, `lines = 16`, `num = 3`: 20 payload
bytes are sent while the declared window (`x_end = 47`) holds
`2*(16*3)/8 = 12` bytes. -/
theorem dis_Part_Time_payload_count_witness :
    (1 ≤ 2 ∧ 8 ≤ 16 ∧ 16 % 8 = 0 ∧ 16 < 4294967296
        ∧ 2 * 16 / 8 ≤ ([10, 11, 12, 13] : List Byte).length)
      ∧ (EPD_Dis_Part_Time 0 0 [10, 11, 12, 13] [20, 21, 22, 23] [30, 31, 32, 33]
            [40, 41, 42, 43] [50, 51, 52, 53] 3 2 16
          = .done ([Event.cmd 0x91, Event.cmd 0x90,
              Event.data 0, Event.data 0, Event.data 0, Event.data 46,
              Event.data 0, Event.data 0, Event.data 0, Event.data 0,
              Event.data 0x01, Event.cmd 0x13]
            ++ ([10, 11, 20, 21, 30, 31, 40, 41, 50, 51,
                12, 13, 22, 23, 32, 33, 42, 43, 52, 53] : List Byte).map
                (fun b => Event.data b.val)
            ++ [Event.cmd 0x12, Event.delay 1, Event.busyWait, Event.cmd 0x92]))
      ∧ (5 * 2 * (16 / 8) = 20 ∧ 2 * (16 * 3) / 8 = 12)
      ∧ usub (uadd 0 (umul 16 3)) 1 = 0 + 16 * 3 - 1
      ∧ (5 * 2 * (16 / 8) = 2 * (16 * 3) / 8 ↔ 3 = 5) :=
  ⟨⟨by decide, by decide, by decide, by decide, by decide⟩,
    (dis_Part_Time_payload_count 0 0 [10, 11, 12, 13] [20, 21, 22, 23] [30, 31, 32, 33]
      [40, 41, 42, 43] [50, 51, 52, 53] 3 2 16 (by decide) (by decide) (by decide)
      (by decide) (by decide) (by decide) (by decide) (by decide) (by decide)).1,
    ⟨by decide, by decide⟩,
    (dis_Part_Time_payload_count 0 0 [10, 11, 12, 13] [20, 21, 22, 23] [30, 31, 32, 33]
      [40, 41, 42, 43] [50, 51, 52, 53] 3 2 16 (by decide) (by decide) (by decide)
      (by decide) (by decide) (by decide) (by decide) (by decide) (by decide)).2.2.2.1
      (by decide) (by decide),
    (dis_Part_Time_payload_count 0 0 [10, 11, 12, 13] [20, 21, 22, 23] [30, 31, 32, 33]
      [40, 41, 42, 43] [50, 51, 52, 53] 3 2 16 (by decide) (by decide) (by decide)
      (by decide) (by decide) (by decide) (by decide) (by decide) (by decide)).2.2.2.2⟩

end EPD
